import Mathlib

/-!
Shallow embedding of the fuzzy heart-rate risk engine (src/main.py).

The program computes a crisp risk score from (heart rate, symptom score)
with three interchangeable inference engines: Mamdani (min clipping, max
aggregation, centroid defuzzification), zero-order Sugeno (weighted average
of constants) and first-order Sugeno / TSK-1 (weighted average of linear
consequents).  Real-valued quantities are embedded as rationals; the
uniformly sampled numpy universes become index functions over a uniform
grid.  The scikit-fuzzy primitives the program calls (zmf, smf, trimf,
interp_membership, centroid defuzzification) are not part of the
repository; they are modelled from the specification as noted on each
definition.
-/

/-- Clamp a value into an interval, mirroring numpy.clip: the lower bound
is applied first, then the upper bound. -/
def clampQ (x lo hi : ℚ) : ℚ := min (max x lo) hi

/-- Modelled from the spec: Z-shaped descending membership curve with two
breakpoints (the standard quadratic Z-spline evaluated pointwise, clamped
into the unit interval by construction); the repository obtains it from
the external fuzzy library, which is not under src/. -/
def zmf (a b x : ℚ) : ℚ :=
  if x ≤ a then 1
  else if x ≤ (a + b) / 2 then 1 - 2 * ((x - a) / (b - a)) ^ 2
  else if x ≤ b then 2 * ((x - b) / (b - a)) ^ 2
  else 0

/-- Modelled from the spec: S-shaped ascending membership curve with two
breakpoints (the standard quadratic S-spline evaluated pointwise); the
repository obtains it from the external fuzzy library, which is not under
src/. -/
def smf (a b x : ℚ) : ℚ :=
  if x ≤ a then 0
  else if x ≤ (a + b) / 2 then 2 * ((x - a) / (b - a)) ^ 2
  else if x ≤ b then 1 - 2 * ((x - b) / (b - a)) ^ 2
  else 1

/-- Modelled from the spec: triangular membership curve with breakpoints
left-zero `a`, peak `b`, right-zero `c`, evaluated pointwise; degenerate
sides (`a = b` or `b = c`) contribute nothing, and the peak has degree 1.
The repository obtains it from the external fuzzy library, which is not
under src/. -/
def trimf (a b c x : ℚ) : ℚ :=
  if x = b then 1
  else if a < x ∧ x < b then (x - a) / (b - a)
  else if b < x ∧ x < c then (c - x) / (c - b)
  else 0

/-- Sample point `i` of a uniform grid starting at `lo` with step `step`
(numpy.linspace in exact arithmetic). -/
def gridPt (lo step : ℚ) (i : ℕ) : ℚ := lo + step * i

/-- Modelled from the spec: `membershipAt` / `grade` — piecewise-linear
interpolation of a sampled membership curve `c` over the uniform grid
`gridPt lo step` with `n` samples, clamped to the boundary sample's degree
outside the sampled range (no extrapolation).  The repository delegates
this to the external fuzzy library's interpolation, which is not under
src/. -/
def membershipAt (lo step : ℚ) (n : ℕ) (c : ℕ → ℚ) (v : ℚ) : ℚ :=
  if v ≤ lo then c 0
  else if lo + step * ((n : ℚ) - 1) ≤ v then c (n - 1)
  else
    c (Nat.floor ((v - lo) / step)) +
      (c (Nat.floor ((v - lo) / step) + 1) - c (Nat.floor ((v - lo) / step))) *
        ((v - (lo + step * (Nat.floor ((v - lo) / step) : ℕ))) / step)

/-- Age-aware resting heart-rate band (src/main.py, hr_normal_band_by_age):
a step function of age, with an athlete adjustment lowering the low bound
for adults, floored at 40. -/
def hr_normal_band_by_age (age_years : ℚ) (athlete : Bool) : ℚ × ℚ :=
  let a := age_years
  let p : ℚ × ℚ :=
    if a < 42/100 then (100, 160)
    else if a < 1 then (80, 140)
    else if a < 3 then (80, 130)
    else if a < 6 then (80, 120)
    else if a < 11 then (70, 110)
    else if a < 15 then (60, 105)
    else (60, 100)
  if athlete = true ∧ 15 ≤ a then (max 40 (p.1 - 15), p.2) else p

/-- Subject profile age (src/main.py, AGE_YEARS). -/
def AGE_YEARS : ℚ := 30

/-- Subject profile athlete flag (src/main.py, IS_ATHLETE). -/
def IS_ATHLETE : Bool := false

/-- Low end of the subject's normal heart-rate band (src/main.py, HR_LO). -/
def HR_LO : ℚ := (hr_normal_band_by_age AGE_YEARS IS_ATHLETE).1

/-- High end of the subject's normal heart-rate band (src/main.py, HR_HI). -/
def HR_HI : ℚ := (hr_normal_band_by_age AGE_YEARS IS_ATHLETE).2

/-- Heart-rate universe low end: hr = linspace(30, 200, 400). -/
def hrLoU : ℚ := 30

/-- Heart-rate universe step: (200 - 30) / (400 - 1). -/
def hrStep : ℚ := 170/399

/-- Heart-rate universe sample count. -/
def hrCount : ℕ := 400

/-- Symptom and risk universes low end: linspace(0, 10, 200). -/
def symLoU : ℚ := 0

/-- Symptom and risk universes step: (10 - 0) / (200 - 1). -/
def symStep : ℚ := 10/199

/-- Symptom and risk universes sample count. -/
def symCount : ℕ := 200

/-- Sampled HR-Low curve: zmf(hr, HR_LO - 12, HR_LO) (src/main.py line 49). -/
def hr_low (i : ℕ) : ℚ := zmf (HR_LO - 12) HR_LO (gridPt hrLoU hrStep i)

/-- Sampled HR-Normal curve: trimf(hr, [HR_LO, (HR_LO+HR_HI)/2, HR_HI]). -/
def hr_normal (i : ℕ) : ℚ :=
  trimf HR_LO ((HR_LO + HR_HI) / 2) HR_HI (gridPt hrLoU hrStep i)

/-- Sampled HR-High curve: smf(hr, HR_HI, HR_HI + 12). -/
def hr_high (i : ℕ) : ℚ := smf HR_HI (HR_HI + 12) (gridPt hrLoU hrStep i)

/-- Sampled Symptoms-Low curve: zmf(sym, 2, 4). -/
def sym_low (i : ℕ) : ℚ := zmf 2 4 (gridPt symLoU symStep i)

/-- Sampled Symptoms-Med curve: trimf(sym, [3, 5, 7]). -/
def sym_med (i : ℕ) : ℚ := trimf 3 5 7 (gridPt symLoU symStep i)

/-- Sampled Symptoms-High curve: smf(sym, 6, 8). -/
def sym_high (i : ℕ) : ℚ := smf 6 8 (gridPt symLoU symStep i)

/-- Sampled Risk-Low consequent curve: trimf(risk, [0, 0, 4]). -/
def risk_low (i : ℕ) : ℚ := trimf 0 0 4 (gridPt symLoU symStep i)

/-- Sampled Risk-Medium consequent curve: trimf(risk, [2, 5, 8]). -/
def risk_med (i : ℕ) : ℚ := trimf 2 5 8 (gridPt symLoU symStep i)

/-- Sampled Risk-High consequent curve: trimf(risk, [6, 10, 10]). -/
def risk_high (i : ℕ) : ℚ := trimf 6 10 10 (gridPt symLoU symStep i)

/-- Sample point `i` of the risk universe. -/
def riskPt (i : ℕ) : ℚ := gridPt symLoU symStep i

/-- Membership grade of a heart-rate value in a sampled HR curve
(grade(hr, curve, val) in src/main.py). -/
def gradeHr (c : ℕ → ℚ) (v : ℚ) : ℚ := membershipAt hrLoU hrStep hrCount c v

/-- Membership grade of a symptom value in a sampled symptom curve
(grade(sym, curve, val) in src/main.py). -/
def gradeSym (c : ℕ → ℚ) (v : ℚ) : ℚ := membershipAt symLoU symStep symCount c v

/-- Rule strength H1 of the Mamdani engine: min(mu_hr_low, mu_sym_med). -/
def r_hi_1 (h s : ℚ) : ℚ := min (gradeHr hr_low h) (gradeSym sym_med s)

/-- Rule strength H2: min(mu_hr_low, mu_sym_high). -/
def r_hi_2 (h s : ℚ) : ℚ := min (gradeHr hr_low h) (gradeSym sym_high s)

/-- Rule strength H3: min(mu_hr_high, mu_sym_med). -/
def r_hi_3 (h s : ℚ) : ℚ := min (gradeHr hr_high h) (gradeSym sym_med s)

/-- Rule strength H4: min(mu_hr_high, mu_sym_high). -/
def r_hi_4 (h s : ℚ) : ℚ := min (gradeHr hr_high h) (gradeSym sym_high s)

/-- Rule strength H5: min(mu_hr_norm, mu_sym_high). -/
def r_hi_5 (h s : ℚ) : ℚ := min (gradeHr hr_normal h) (gradeSym sym_high s)

/-- Rule strength M1: min(mu_hr_low, mu_sym_low). -/
def r_med_1 (h s : ℚ) : ℚ := min (gradeHr hr_low h) (gradeSym sym_low s)

/-- Rule strength M2: min(mu_hr_high, mu_sym_low). -/
def r_med_2 (h s : ℚ) : ℚ := min (gradeHr hr_high h) (gradeSym sym_low s)

/-- Rule strength M3: min(mu_hr_norm, mu_sym_med). -/
def r_med_3 (h s : ℚ) : ℚ := min (gradeHr hr_normal h) (gradeSym sym_med s)

/-- Baseline rule strength M4: 0.5 * max(mu_hr_low, mu_hr_high); not a
conjunction, independent of the symptom axis (src/main.py line 136). -/
def r_med_4 (h : ℚ) : ℚ := 1/2 * max (gradeHr hr_low h) (gradeHr hr_high h)

/-- Rule strength L1: min(mu_hr_norm, mu_sym_low). -/
def r_low_1 (h s : ℚ) : ℚ := min (gradeHr hr_normal h) (gradeSym sym_low s)

/-- Activated High-class curve: pointwise maximum of the five High-rule
clippings fmin(risk_high, r) (src/main.py lines 140-146). -/
def act_hi (h s : ℚ) (i : ℕ) : ℚ :=
  max (max (max (max (min (risk_high i) (r_hi_1 h s))
    (min (risk_high i) (r_hi_2 h s)))
    (min (risk_high i) (r_hi_3 h s)))
    (min (risk_high i) (r_hi_4 h s)))
    (min (risk_high i) (r_hi_5 h s))

/-- Activated Medium-class curve: pointwise maximum of the four
Medium-rule clippings (src/main.py lines 148-153). -/
def act_med (h s : ℚ) (i : ℕ) : ℚ :=
  max (max (max (min (risk_med i) (r_med_1 h s))
    (min (risk_med i) (r_med_2 h s)))
    (min (risk_med i) (r_med_3 h s)))
    (min (risk_med i) (r_med_4 h))

/-- Activated Low-class curve: fmin(risk_low, r_low_1) (line 155). -/
def act_low (h s : ℚ) (i : ℕ) : ℚ := min (risk_low i) (r_low_1 h s)

/-- Aggregated output curve: fmax(act_low, fmax(act_med, act_hi))
(src/main.py line 157). -/
def aggregated (h s : ℚ) (i : ℕ) : ℚ :=
  max (act_low h s i) (max (act_med h s i) (act_hi h s i))

/-- Sum of `f` over sample indices 0, ..., n-1 (numpy.sum over a sampled
array). -/
def sumRange : ℕ → (ℕ → ℚ) → ℚ
  | 0, _ => 0
  | n + 1, f => sumRange n f + f n

/-- Modelled from the spec: centroid defuzzification over the sampled risk
universe, sum(risk_i * y_i) / sum(y_i); the repository delegates this to
the external fuzzy library's defuzzifier, which is not under src/. -/
def centroid (y : ℕ → ℚ) : ℚ :=
  sumRange symCount (fun i => riskPt i * y i) / sumRange symCount y

/-- Mamdani crisp risk (src/main.py, crisp_risk): centroid of the
aggregated curve. -/
def crisp_risk (h s : ℚ) : ℚ := centroid (aggregated h s)

/-- The AND operator selector of the Sugeno engines: the string argument
and_op of src/main.py, which selects the product t-norm for "prod" and
the minimum t-norm otherwise. -/
inductive AndKind
  | prod
  | min

/-- The t-norm chosen by and_op (the local AND closure of sugeno_infer
and sugeno1_infer): product for prod, pointwise minimum otherwise. -/
def AND : AndKind → ℚ → ℚ → ℚ
  | AndKind.prod, a, b => a * b
  | AndKind.min, a, b => min a b

/-- The 10-entry Sugeno-0 rule-weight vector, in the fixed order H1-H5,
M1-M4, L1 (src/main.py lines 259-276). -/
def sugeno_w (op : AndKind) (h s : ℚ) : List ℚ :=
  [AND op (gradeHr hr_low h) (gradeSym sym_med s),
   AND op (gradeHr hr_low h) (gradeSym sym_high s),
   AND op (gradeHr hr_high h) (gradeSym sym_med s),
   AND op (gradeHr hr_high h) (gradeSym sym_high s),
   AND op (gradeHr hr_normal h) (gradeSym sym_high s),
   AND op (gradeHr hr_low h) (gradeSym sym_low s),
   AND op (gradeHr hr_high h) (gradeSym sym_low s),
   AND op (gradeHr hr_normal h) (gradeSym sym_med s),
   1/2 * max (gradeHr hr_low h) (gradeHr hr_high h),
   AND op (gradeHr hr_normal h) (gradeSym sym_low s)]

/-- The zero-order Sugeno consequent constant table (src/main.py,
SUGENO_Z dict). -/
structure ZVals where
  low : ℚ
  med : ℚ
  high : ℚ

/-- Default Sugeno constants: LOW 2.0, MED 5.0, HIGH 8.5. -/
def SUGENO_Z : ZVals := ⟨2, 5, 17/2⟩

/-- Per-rule constants of the zero-order engine, aligned with the rule
order of sugeno_w (src/main.py lines 279-283). -/
def sugeno_z (zv : ZVals) : List ℚ :=
  [zv.high, zv.high, zv.high, zv.high, zv.high,
   zv.med, zv.med, zv.med, zv.med, zv.low]

/-- Zero-order Sugeno crisp inference (src/main.py, sugeno_infer):
weighted average of per-rule constants, 0 when the weight sum is at most
1e-12, clipped into [0, 10]. -/
def sugeno_infer (op : AndKind) (zv : ZVals) (h s : ℚ) : ℚ :=
  let w := sugeno_w op h s
  let contrib := List.zipWith (fun a b => a * b) w (sugeno_z zv)
  let denom := w.sum
  let crisp : ℚ := if 1/10^12 < denom then contrib.sum / denom else 0
  clampQ crisp 0 10

/-- sugeno_infer with its default arguments: AND = product, default
constant table. -/
def sugeno_infer_default (h s : ℚ) : ℚ := sugeno_infer AndKind.prod SUGENO_Z h s

/-- The 10-entry Sugeno-1 rule-weight vector: the duplicated weight block
of sugeno1_infer (src/main.py lines 435-447). -/
def sugeno1_w (op : AndKind) (h s : ℚ) : List ℚ :=
  [AND op (gradeHr hr_low h) (gradeSym sym_med s),
   AND op (gradeHr hr_low h) (gradeSym sym_high s),
   AND op (gradeHr hr_high h) (gradeSym sym_med s),
   AND op (gradeHr hr_high h) (gradeSym sym_high s),
   AND op (gradeHr hr_normal h) (gradeSym sym_high s),
   AND op (gradeHr hr_low h) (gradeSym sym_low s),
   AND op (gradeHr hr_high h) (gradeSym sym_low s),
   AND op (gradeHr hr_normal h) (gradeSym sym_med s),
   1/2 * max (gradeHr hr_low h) (gradeHr hr_high h),
   AND op (gradeHr hr_normal h) (gradeSym sym_low s)]

/-- Default TSK-1 coefficient table (a0, a1, a2) per rule, in the order
H1-H5, M1-M4, L1 (src/main.py, DEFAULT_TSK1_COEFFS). -/
def DEFAULT_TSK1_COEFFS : List (ℚ × ℚ × ℚ) :=
  [(7, 0, 9/5), (36/5, 0, 2), (7, 4/5, 9/5), (15/2, 4/5, 17/10),
   (36/5, 1/2, 9/5), (4, 0, 4/5), (22/5, 4/5, 3/5), (24/5, 3/10, 6/5),
   (4, 1, 0), (5/2, 1/5, -(4/5))]

/-- First-order (TSK-1) Sugeno crisp inference (src/main.py,
sugeno1_infer): weighted average of per-rule linear consequents
a0 + a1*hrn + a2*symn over normalized inputs, with the same degenerate
and clipping treatment as the zero-order engine. -/
def sugeno1_infer (op : AndKind) (coeffs : List (ℚ × ℚ × ℚ)) (h s : ℚ) : ℚ :=
  let w := sugeno1_w op h s
  let hrn := clampQ ((h - HR_LO) / max (1/10^9) (HR_HI - HR_LO)) 0 1
  let symn := clampQ (s / 10) 0 1
  let z := coeffs.map (fun t => t.1 + t.2.1 * hrn + t.2.2 * symn)
  let contrib := List.zipWith (fun a b => a * b) w z
  let denom := w.sum
  let crisp : ℚ := if 1/10^12 < denom then contrib.sum / denom else 0
  clampQ crisp 0 10

/-- The Mamdani rule-strength vector in the same fixed order as the
Sugeno weight vectors (the ten r_ locals of crisp_risk). -/
def mamdani_w (h s : ℚ) : List ℚ :=
  [r_hi_1 h s, r_hi_2 h s, r_hi_3 h s, r_hi_4 h s, r_hi_5 h s,
   r_med_1 h s, r_med_2 h s, r_med_3 h s, r_med_4 h, r_low_1 h s]

/-- The target consequent curve of each rule, aligned with the rule
order: five High rules, four Medium rules, one Low rule. -/
def mamdaniConsequents : List (ℕ → ℚ) :=
  [risk_high, risk_high, risk_high, risk_high, risk_high,
   risk_med, risk_med, risk_med, risk_med, risk_low]

/-- The aggregation step as the specification words it: clip each rule's
target consequent curve by its weight (pointwise minimum), then take the
pointwise maximum over all ten clipped curves. -/
def specAgg (h s : ℚ) (i : ℕ) : ℚ :=
  (List.zipWith (fun w c => min (c i) w) (mamdani_w h s) mamdaniConsequents).foldr max 0

/-- The Sugeno output combinator as the specification words it: the
weighted average sum(w_i * z_i) / sum(w_i) clamped to the risk range
[0, 10], and exactly 0 when the weight sum does not exceed 1e-12. -/
def weightedAverageClamped (w z : List ℚ) : ℚ :=
  if 1/10^12 < w.sum then
    clampQ ((List.zipWith (fun a b => a * b) w z).sum / w.sum) 0 10
  else 0

/-- The configured subject band evaluates to the adult non-athlete band
(60, 100). -/
lemma HR_LO_eq : HR_LO = 60 := by
  norm_num [HR_LO, hr_normal_band_by_age, AGE_YEARS, IS_ATHLETE]

/-- The configured high end of the band is 100. -/
lemma HR_HI_eq : HR_HI = 100 := by
  norm_num [HR_HI, hr_normal_band_by_age, AGE_YEARS, IS_ATHLETE]

/-- Z-shaped curves are non-negative everywhere. -/
lemma zmf_nonneg (a b x : ℚ) : 0 ≤ zmf a b x := by
  unfold zmf
  split_ifs with h1 h2 h3
  · norm_num
  · push_neg at h1
    have hd : (0 : ℚ) < b - a := by linarith
    have hu : (x - a) / (b - a) ≤ 1/2 := by
      rw [div_le_iff₀ hd]; linarith
    have hu0 : 0 ≤ (x - a) / (b - a) := div_nonneg (by linarith) hd.le
    nlinarith [hu, hu0]
  · positivity
  · norm_num

/-- Z-shaped curves never exceed one. -/
lemma zmf_le_one (a b x : ℚ) : zmf a b x ≤ 1 := by
  unfold zmf
  split_ifs with h1 h2 h3
  · norm_num
  · nlinarith [sq_nonneg ((x - a) / (b - a))]
  · push_neg at h2
    have hd : (0 : ℚ) < b - a := by linarith
    have ht1 : -(1/2) ≤ (x - b) / (b - a) := by
      rw [le_div_iff₀ hd]; linarith
    have ht2 : (x - b) / (b - a) ≤ 0 := div_nonpos_of_nonpos_of_nonneg (by linarith) hd.le
    nlinarith [mul_nonneg (by linarith : (0:ℚ) ≤ 1/2 - (x - b) / (b - a))
      (by linarith : (0:ℚ) ≤ 1/2 + (x - b) / (b - a))]
  · norm_num

/-- S-shaped curves are non-negative everywhere. -/
lemma smf_nonneg (a b x : ℚ) : 0 ≤ smf a b x := by
  unfold smf
  split_ifs with h1 h2 h3
  · norm_num
  · positivity
  · push_neg at h2
    have hd : (0 : ℚ) < b - a := by linarith
    have ht1 : -(1/2) ≤ (x - b) / (b - a) := by
      rw [le_div_iff₀ hd]; linarith
    have ht2 : (x - b) / (b - a) ≤ 0 := div_nonpos_of_nonpos_of_nonneg (by linarith) hd.le
    nlinarith [mul_nonneg (by linarith : (0:ℚ) ≤ 1/2 - (x - b) / (b - a))
      (by linarith : (0:ℚ) ≤ 1/2 + (x - b) / (b - a))]
  · norm_num

/-- S-shaped curves never exceed one. -/
lemma smf_le_one (a b x : ℚ) : smf a b x ≤ 1 := by
  unfold smf
  split_ifs with h1 h2 h3
  · norm_num
  · push_neg at h1
    have hd : (0 : ℚ) < b - a := by linarith
    have hu : (x - a) / (b - a) ≤ 1/2 := by
      rw [div_le_iff₀ hd]; linarith
    have hu0 : 0 ≤ (x - a) / (b - a) := div_nonneg (by linarith) hd.le
    nlinarith [hu, hu0]
  · nlinarith [sq_nonneg ((x - b) / (b - a))]
  · norm_num

/-- Triangular curves are non-negative everywhere. -/
lemma trimf_nonneg (a b c x : ℚ) : 0 ≤ trimf a b c x := by
  unfold trimf
  split_ifs with h1 h2 h3
  · norm_num
  · exact div_nonneg (by linarith [h2.1]) (by linarith [h2.1, h2.2])
  · exact div_nonneg (by linarith [h3.2]) (by linarith [h3.1, h3.2])
  · norm_num

/-- Triangular curves never exceed one. -/
lemma trimf_le_one (a b c x : ℚ) : trimf a b c x ≤ 1 := by
  unfold trimf
  split_ifs with h1 h2 h3
  · norm_num
  · rw [div_le_one (by linarith [h2.1, h2.2])]; linarith [h2.2]
  · rw [div_le_one (by linarith [h3.1, h3.2])]; linarith [h3.1]
  · norm_num

/-- Interpolation of a curve bounded in the unit interval stays in the
unit interval: the spec's clamping and interpolation never leave [0,1]. -/
lemma membershipAt_mem (lo step : ℚ) (n : ℕ) (c : ℕ → ℚ)
    (hstep : 0 < step) (hc0 : ∀ i, 0 ≤ c i) (hc1 : ∀ i, c i ≤ 1) (v : ℚ) :
    0 ≤ membershipAt lo step n c v ∧ membershipAt lo step n c v ≤ 1 := by
  unfold membershipAt
  split_ifs with h1 h2
  · exact ⟨hc0 0, hc1 0⟩
  · exact ⟨hc0 _, hc1 _⟩
  · push_neg at h1
    set u : ℚ := (v - lo) / step with hu
    have hu0 : 0 < u := div_pos (by linarith) hstep
    set k : ℕ := Nat.floor u with hk
    have hk1 : (k : ℚ) ≤ u := Nat.floor_le hu0.le
    have hk2 : u < k + 1 := Nat.lt_floor_add_one u
    have hvlo : v - lo = step * u := by
      rw [hu, mul_div_cancel₀]
      exact ne_of_gt hstep
    have ht : (v - (lo + step * (k : ℕ))) / step = u - k := by
      rw [show v - (lo + step * (k : ℕ)) = step * u - step * k by linarith, ← mul_sub,
        mul_div_cancel_left₀]
      exact ne_of_gt hstep
    rw [ht]
    constructor
    · nlinarith [mul_nonneg (hc0 k) (by linarith : (0:ℚ) ≤ 1 - (u - (k:ℚ))),
        mul_nonneg (hc0 (k+1)) (by linarith : (0:ℚ) ≤ u - (k:ℚ))]
    · nlinarith [mul_nonneg (by linarith [hc1 k] : (0:ℚ) ≤ 1 - c k)
        (by linarith : (0:ℚ) ≤ 1 - (u - (k:ℚ))),
        mul_nonneg (by linarith [hc1 (k+1)] : (0:ℚ) ≤ 1 - c (k+1))
        (by linarith : (0:ℚ) ≤ u - (k:ℚ))]

/-- Below the sampled range, interpolation returns the first sample. -/
lemma membershipAt_low (lo step : ℚ) (n : ℕ) (c : ℕ → ℚ) (v : ℚ)
    (h : v ≤ lo) : membershipAt lo step n c v = c 0 := by
  rw [membershipAt, if_pos h]

/-- At or above the last sample point, interpolation returns the last
sample. -/
lemma membershipAt_high (lo step : ℚ) (n : ℕ) (c : ℕ → ℚ) (v : ℚ)
    (hstep : 0 < step) (hn : 2 ≤ n)
    (h : lo + step * ((n : ℚ) - 1) ≤ v) : membershipAt lo step n c v = c (n - 1) := by
  have hn' : (2 : ℚ) ≤ (n : ℚ) := by exact_mod_cast hn
  have hpos : 0 < step * ((n : ℚ) - 1) := mul_pos hstep (by linarith)
  rw [membershipAt, if_neg (by push_neg; linarith), if_pos h]

/-- At an exact sample point the interpolation returns the stored degree
exactly. -/
lemma membershipAt_node (lo step : ℚ) (n : ℕ) (c : ℕ → ℚ)
    (hstep : 0 < step) (k : ℕ) (hk : k < n) :
    membershipAt lo step n c (gridPt lo step k) = c k := by
  rcases Nat.eq_zero_or_pos k with hk0 | hk0
  · subst hk0
    rw [membershipAt_low]
    simp [gridPt]
  · have hklo : lo < gridPt lo step k := by
      have : 0 < step * (k : ℚ) := mul_pos hstep (by exact_mod_cast hk0)
      simp only [gridPt]; linarith
    rcases eq_or_lt_of_le (Nat.succ_le_of_lt hk) with hke | hklt
    · have hkn : k = n - 1 := by omega
      rw [membershipAt_high lo step n c _ hstep (by omega), hkn]
      have hcast : ((n : ℚ) - 1) = ((k : ℕ) : ℚ) := by
        rw [hkn]; push_cast [Nat.cast_sub (by omega : 1 ≤ n)]; ring
      rw [hcast]
      simp [gridPt]
    · have hkn1 : (k : ℚ) < (n : ℚ) - 1 := by
        have : (k + 1 : ℕ) < n := hklt
        have := (Nat.cast_lt (α := ℚ)).mpr this
        push_cast at this
        linarith
      rw [membershipAt, if_neg (not_le.mpr hklo), if_neg (by
        push_neg
        simp only [gridPt]
        nlinarith [hkn1])]
      have harg : (gridPt lo step k - lo) / step = (k : ℚ) := by
        simp only [gridPt]
        rw [show lo + step * (k : ℚ) - lo = step * (k : ℚ) by ring,
          mul_div_cancel_left₀]
        exact ne_of_gt hstep
      rw [harg, Nat.floor_natCast]
      simp [gridPt]

/-- Inside the sampled range, interpolation on segment k evaluates the
usual linear formula; the hypotheses pin the segment. -/
lemma membershipAt_eval (lo step : ℚ) (n : ℕ) (c : ℕ → ℚ) (v : ℚ) (k : ℕ)
    (hstep : 0 < step) (hlo : lo < v)
    (hhi : ¬ lo + step * ((n : ℚ) - 1) ≤ v)
    (hk1 : lo + step * k ≤ v) (hk2 : v < lo + step * ((k : ℚ) + 1)) :
    membershipAt lo step n c v
      = c k + (c (k + 1) - c k) * ((v - (lo + step * k)) / step) := by
  rw [membershipAt, if_neg (not_le.mpr hlo), if_neg hhi]
  have harg : Nat.floor ((v - lo) / step) = k := by
    rw [Nat.floor_eq_iff (div_nonneg (by linarith) hstep.le)]
    constructor
    · rw [le_div_iff₀ hstep]; linarith
    · rw [div_lt_iff₀ hstep]; linarith
  rw [harg]

/-- All six sampled antecedent curves and the three consequent curves take
values in the unit interval; bundled for reuse. -/
lemma hr_low_mem (i : ℕ) : 0 ≤ hr_low i ∧ hr_low i ≤ 1 :=
  ⟨zmf_nonneg _ _ _, zmf_le_one _ _ _⟩

/-- Unit-interval bounds for the sampled HR-Normal curve. -/
lemma hr_normal_mem (i : ℕ) : 0 ≤ hr_normal i ∧ hr_normal i ≤ 1 :=
  ⟨trimf_nonneg _ _ _ _, trimf_le_one _ _ _ _⟩

/-- Unit-interval bounds for the sampled HR-High curve. -/
lemma hr_high_mem (i : ℕ) : 0 ≤ hr_high i ∧ hr_high i ≤ 1 :=
  ⟨smf_nonneg _ _ _, smf_le_one _ _ _⟩

/-- Unit-interval bounds for the sampled Symptoms-Low curve. -/
lemma sym_low_mem (i : ℕ) : 0 ≤ sym_low i ∧ sym_low i ≤ 1 :=
  ⟨zmf_nonneg _ _ _, zmf_le_one _ _ _⟩

/-- Unit-interval bounds for the sampled Symptoms-Med curve. -/
lemma sym_med_mem (i : ℕ) : 0 ≤ sym_med i ∧ sym_med i ≤ 1 :=
  ⟨trimf_nonneg _ _ _ _, trimf_le_one _ _ _ _⟩

/-- Unit-interval bounds for the sampled Symptoms-High curve. -/
lemma sym_high_mem (i : ℕ) : 0 ≤ sym_high i ∧ sym_high i ≤ 1 :=
  ⟨smf_nonneg _ _ _, smf_le_one _ _ _⟩

/-- Unit-interval bounds for the sampled Risk-Low curve. -/
lemma risk_low_mem (i : ℕ) : 0 ≤ risk_low i ∧ risk_low i ≤ 1 :=
  ⟨trimf_nonneg _ _ _ _, trimf_le_one _ _ _ _⟩

/-- Unit-interval bounds for the sampled Risk-Medium curve. -/
lemma risk_med_mem (i : ℕ) : 0 ≤ risk_med i ∧ risk_med i ≤ 1 :=
  ⟨trimf_nonneg _ _ _ _, trimf_le_one _ _ _ _⟩

/-- Unit-interval bounds for the sampled Risk-High curve. -/
lemma risk_high_mem (i : ℕ) : 0 ≤ risk_high i ∧ risk_high i ≤ 1 :=
  ⟨trimf_nonneg _ _ _ _, trimf_le_one _ _ _ _⟩

/-- Heart-rate membership grades stay in the unit interval for every real
query value. -/
lemma gradeHr_mem (c : ℕ → ℚ) (hc0 : ∀ i, 0 ≤ c i) (hc1 : ∀ i, c i ≤ 1)
    (v : ℚ) : 0 ≤ gradeHr c v ∧ gradeHr c v ≤ 1 :=
  membershipAt_mem hrLoU hrStep hrCount c (by norm_num [hrStep]) hc0 hc1 v

/-- Symptom membership grades stay in the unit interval for every real
query value. -/
lemma gradeSym_mem (c : ℕ → ℚ) (hc0 : ∀ i, 0 ≤ c i) (hc1 : ∀ i, c i ≤ 1)
    (v : ℚ) : 0 ≤ gradeSym c v ∧ gradeSym c v ≤ 1 :=
  membershipAt_mem symLoU symStep symCount c (by norm_num [symStep]) hc0 hc1 v

/-- The chosen t-norm of two non-negative degrees is non-negative. -/
lemma AND_nonneg (op : AndKind) (a b : ℚ) (ha : 0 ≤ a) (hb : 0 ≤ b) :
    0 ≤ AND op a b := by
  cases op
  · exact mul_nonneg ha hb
  · exact le_min ha hb

/-- The chosen t-norm of two degrees in the unit interval is at most one. -/
lemma AND_le_one (op : AndKind) (a b : ℚ) (ha : a ≤ 1) (hb0 : 0 ≤ b)
    (hb : b ≤ 1) : AND op a b ≤ 1 := by
  cases op
  · exact mul_le_one₀ ha hb0 hb
  · exact le_trans (min_le_right a b) hb

/-- Exact grade of HR-Low at heart rate 110. -/
lemma gv_hr_low : gradeHr hr_low 110 = 0 := by
  rw [gradeHr, hrLoU, hrStep, hrCount,
    membershipAt_eval 30 (170/399) 400 hr_low 110 187 (by norm_num)
      (by norm_num) (by norm_num) (by norm_num) (by norm_num)]
  norm_num [hr_low, zmf, gridPt, hrLoU, hrStep, HR_LO_eq]

/-- Exact grade of HR-Normal at heart rate 110. -/
lemma gv_hr_normal : gradeHr hr_normal 110 = 0 := by
  rw [gradeHr, hrLoU, hrStep, hrCount,
    membershipAt_eval 30 (170/399) 400 hr_normal 110 187 (by norm_num)
      (by norm_num) (by norm_num) (by norm_num) (by norm_num)]
  norm_num [hr_normal, trimf, gridPt, hrLoU, hrStep, HR_LO_eq, HR_HI_eq]

/-- Exact grade of HR-High at heart rate 110. -/
lemma gv_hr_high : gradeHr hr_high 110 = 2705117/2865618 := by
  rw [gradeHr, hrLoU, hrStep, hrCount,
    membershipAt_eval 30 (170/399) 400 hr_high 110 187 (by norm_num)
      (by norm_num) (by norm_num) (by norm_num) (by norm_num)]
  norm_num [hr_high, smf, gridPt, hrLoU, hrStep, HR_HI_eq]

/-- Exact grade of Symptoms-Low at symptom score 7. -/
lemma gv_sym_low : gradeSym sym_low 7 = 0 := by
  rw [gradeSym, symLoU, symStep, symCount,
    membershipAt_eval 0 (10/199) 200 sym_low 7 139 (by norm_num)
      (by norm_num) (by norm_num) (by norm_num) (by norm_num)]
  norm_num [sym_low, zmf, gridPt, symLoU, symStep]

/-- Exact grade of Symptoms-Med at symptom score 7. -/
lemma gv_sym_med : gradeSym sym_med 7 = 21/3980 := by
  rw [gradeSym, symLoU, symStep, symCount,
    membershipAt_eval 0 (10/199) 200 sym_med 7 139 (by norm_num)
      (by norm_num) (by norm_num) (by norm_num) (by norm_num)]
  norm_num [sym_med, trimf, gridPt, symLoU, symStep]

/-- Exact grade of Symptoms-High at symptom score 7. -/
lemma gv_sym_high : gradeSym sym_high 7 = 197963/396010 := by
  rw [gradeSym, symLoU, symStep, symCount,
    membershipAt_eval 0 (10/199) 200 sym_high 7 139 (by norm_num)
      (by norm_num) (by norm_num) (by norm_num) (by norm_num)]
  norm_num [sym_high, smf, gridPt, symLoU, symStep]

/-- Exact Mamdani rule strength r_hi_1 at the query (110, 7). -/
lemma mwv_r_hi_1 : r_hi_1 110 7 = 0 := by
  norm_num [r_hi_1, gv_hr_low, gv_hr_normal, gv_hr_high, gv_sym_low, gv_sym_med, gv_sym_high, min_def, max_def]

/-- Exact Mamdani rule strength r_hi_2 at the query (110, 7). -/
lemma mwv_r_hi_2 : r_hi_2 110 7 = 0 := by
  norm_num [r_hi_2, gv_hr_low, gv_hr_normal, gv_hr_high, gv_sym_low, gv_sym_med, gv_sym_high, min_def, max_def]

/-- Exact Mamdani rule strength r_hi_3 at the query (110, 7). -/
lemma mwv_r_hi_3 : r_hi_3 110 7 = 21/3980 := by
  norm_num [r_hi_3, gv_hr_low, gv_hr_normal, gv_hr_high, gv_sym_low, gv_sym_med, gv_sym_high, min_def, max_def]

/-- Exact Mamdani rule strength r_hi_4 at the query (110, 7). -/
lemma mwv_r_hi_4 : r_hi_4 110 7 = 197963/396010 := by
  norm_num [r_hi_4, gv_hr_low, gv_hr_normal, gv_hr_high, gv_sym_low, gv_sym_med, gv_sym_high, min_def, max_def]

/-- Exact Mamdani rule strength r_hi_5 at the query (110, 7). -/
lemma mwv_r_hi_5 : r_hi_5 110 7 = 0 := by
  norm_num [r_hi_5, gv_hr_low, gv_hr_normal, gv_hr_high, gv_sym_low, gv_sym_med, gv_sym_high, min_def, max_def]

/-- Exact Mamdani rule strength r_med_1 at the query (110, 7). -/
lemma mwv_r_med_1 : r_med_1 110 7 = 0 := by
  norm_num [r_med_1, gv_hr_low, gv_hr_normal, gv_hr_high, gv_sym_low, gv_sym_med, gv_sym_high, min_def, max_def]

/-- Exact Mamdani rule strength r_med_2 at the query (110, 7). -/
lemma mwv_r_med_2 : r_med_2 110 7 = 0 := by
  norm_num [r_med_2, gv_hr_low, gv_hr_normal, gv_hr_high, gv_sym_low, gv_sym_med, gv_sym_high, min_def, max_def]

/-- Exact Mamdani rule strength r_med_3 at the query (110, 7). -/
lemma mwv_r_med_3 : r_med_3 110 7 = 0 := by
  norm_num [r_med_3, gv_hr_low, gv_hr_normal, gv_hr_high, gv_sym_low, gv_sym_med, gv_sym_high, min_def, max_def]

/-- Exact Mamdani rule strength r_med_4 at the query (110, 7). -/
lemma mwv_r_med_4 : r_med_4 110 = 2705117/5731236 := by
  norm_num [r_med_4, gv_hr_low, gv_hr_normal, gv_hr_high, gv_sym_low, gv_sym_med, gv_sym_high, min_def, max_def]

/-- Exact Mamdani rule strength r_low_1 at the query (110, 7). -/
lemma mwv_r_low_1 : r_low_1 110 7 = 0 := by
  norm_num [r_low_1, gv_hr_low, gv_hr_normal, gv_hr_high, gv_sym_low, gv_sym_med, gv_sym_high, min_def, max_def]

/-- Aggregated Mamdani curve value at risk sample 0 for the query (110, 7). -/
lemma aggV0 : aggregated 110 7 0 = 0 := by
  norm_num [aggregated, act_hi, act_med, act_low, mwv_r_hi_1, mwv_r_hi_2, mwv_r_hi_3, mwv_r_hi_4, mwv_r_hi_5, mwv_r_med_1, mwv_r_med_2, mwv_r_med_3, mwv_r_med_4, mwv_r_low_1,
    risk_low, risk_med, risk_high, trimf, riskPt, gridPt, symLoU, symStep, min_def, max_def]

/-- Aggregated Mamdani curve value at risk sample 1 for the query (110, 7). -/
lemma aggV1 : aggregated 110 7 1 = 0 := by
  norm_num [aggregated, act_hi, act_med, act_low, mwv_r_hi_1, mwv_r_hi_2, mwv_r_hi_3, mwv_r_hi_4, mwv_r_hi_5, mwv_r_med_1, mwv_r_med_2, mwv_r_med_3, mwv_r_med_4, mwv_r_low_1,
    risk_low, risk_med, risk_high, trimf, riskPt, gridPt, symLoU, symStep, min_def, max_def]

/-- Aggregated Mamdani curve value at risk sample 2 for the query (110, 7). -/
lemma aggV2 : aggregated 110 7 2 = 0 := by
  norm_num [aggregated, act_hi, act_med, act_low, mwv_r_hi_1, mwv_r_hi_2, mwv_r_hi_3, mwv_r_hi_4, mwv_r_hi_5, mwv_r_med_1, mwv_r_med_2, mwv_r_med_3, mwv_r_med_4, mwv_r_low_1,
    risk_low, risk_med, risk_high, trimf, riskPt, gridPt, symLoU, symStep, min_def, max_def]

/-- Aggregated Mamdani curve value at risk sample 3 for the query (110, 7). -/
lemma aggV3 : aggregated 110 7 3 = 0 := by
  norm_num [aggregated, act_hi, act_med, act_low, mwv_r_hi_1, mwv_r_hi_2, mwv_r_hi_3, mwv_r_hi_4, mwv_r_hi_5, mwv_r_med_1, mwv_r_med_2, mwv_r_med_3, mwv_r_med_4, mwv_r_low_1,
    risk_low, risk_med, risk_high, trimf, riskPt, gridPt, symLoU, symStep, min_def, max_def]

/-- Aggregated Mamdani curve value at risk sample 4 for the query (110, 7). -/
lemma aggV4 : aggregated 110 7 4 = 0 := by
  norm_num [aggregated, act_hi, act_med, act_low, mwv_r_hi_1, mwv_r_hi_2, mwv_r_hi_3, mwv_r_hi_4, mwv_r_hi_5, mwv_r_med_1, mwv_r_med_2, mwv_r_med_3, mwv_r_med_4, mwv_r_low_1,
    risk_low, risk_med, risk_high, trimf, riskPt, gridPt, symLoU, symStep, min_def, max_def]

/-- Aggregated Mamdani curve value at risk sample 5 for the query (110, 7). -/
lemma aggV5 : aggregated 110 7 5 = 0 := by
  norm_num [aggregated, act_hi, act_med, act_low, mwv_r_hi_1, mwv_r_hi_2, mwv_r_hi_3, mwv_r_hi_4, mwv_r_hi_5, mwv_r_med_1, mwv_r_med_2, mwv_r_med_3, mwv_r_med_4, mwv_r_low_1,
    risk_low, risk_med, risk_high, trimf, riskPt, gridPt, symLoU, symStep, min_def, max_def]

/-- Aggregated Mamdani curve value at risk sample 6 for the query (110, 7). -/
lemma aggV6 : aggregated 110 7 6 = 0 := by
  norm_num [aggregated, act_hi, act_med, act_low, mwv_r_hi_1, mwv_r_hi_2, mwv_r_hi_3, mwv_r_hi_4, mwv_r_hi_5, mwv_r_med_1, mwv_r_med_2, mwv_r_med_3, mwv_r_med_4, mwv_r_low_1,
    risk_low, risk_med, risk_high, trimf, riskPt, gridPt, symLoU, symStep, min_def, max_def]

/-- Aggregated Mamdani curve value at risk sample 7 for the query (110, 7). -/
lemma aggV7 : aggregated 110 7 7 = 0 := by
  norm_num [aggregated, act_hi, act_med, act_low, mwv_r_hi_1, mwv_r_hi_2, mwv_r_hi_3, mwv_r_hi_4, mwv_r_hi_5, mwv_r_med_1, mwv_r_med_2, mwv_r_med_3, mwv_r_med_4, mwv_r_low_1,
    risk_low, risk_med, risk_high, trimf, riskPt, gridPt, symLoU, symStep, min_def, max_def]

/-- Aggregated Mamdani curve value at risk sample 8 for the query (110, 7). -/
lemma aggV8 : aggregated 110 7 8 = 0 := by
  norm_num [aggregated, act_hi, act_med, act_low, mwv_r_hi_1, mwv_r_hi_2, mwv_r_hi_3, mwv_r_hi_4, mwv_r_hi_5, mwv_r_med_1, mwv_r_med_2, mwv_r_med_3, mwv_r_med_4, mwv_r_low_1,
    risk_low, risk_med, risk_high, trimf, riskPt, gridPt, symLoU, symStep, min_def, max_def]

/-- Aggregated Mamdani curve value at risk sample 9 for the query (110, 7). -/
lemma aggV9 : aggregated 110 7 9 = 0 := by
  norm_num [aggregated, act_hi, act_med, act_low, mwv_r_hi_1, mwv_r_hi_2, mwv_r_hi_3, mwv_r_hi_4, mwv_r_hi_5, mwv_r_med_1, mwv_r_med_2, mwv_r_med_3, mwv_r_med_4, mwv_r_low_1,
    risk_low, risk_med, risk_high, trimf, riskPt, gridPt, symLoU, symStep, min_def, max_def]

/-- Aggregated Mamdani curve value at risk sample 10 for the query (110, 7). -/
lemma aggV10 : aggregated 110 7 10 = 0 := by
  norm_num [aggregated, act_hi, act_med, act_low, mwv_r_hi_1, mwv_r_hi_2, mwv_r_hi_3, mwv_r_hi_4, mwv_r_hi_5, mwv_r_med_1, mwv_r_med_2, mwv_r_med_3, mwv_r_med_4, mwv_r_low_1,
    risk_low, risk_med, risk_high, trimf, riskPt, gridPt, symLoU, symStep, min_def, max_def]

/-- Aggregated Mamdani curve value at risk sample 11 for the query (110, 7). -/
lemma aggV11 : aggregated 110 7 11 = 0 := by
  norm_num [aggregated, act_hi, act_med, act_low, mwv_r_hi_1, mwv_r_hi_2, mwv_r_hi_3, mwv_r_hi_4, mwv_r_hi_5, mwv_r_med_1, mwv_r_med_2, mwv_r_med_3, mwv_r_med_4, mwv_r_low_1,
    risk_low, risk_med, risk_high, trimf, riskPt, gridPt, symLoU, symStep, min_def, max_def]

/-- Aggregated Mamdani curve value at risk sample 12 for the query (110, 7). -/
lemma aggV12 : aggregated 110 7 12 = 0 := by
  norm_num [aggregated, act_hi, act_med, act_low, mwv_r_hi_1, mwv_r_hi_2, mwv_r_hi_3, mwv_r_hi_4, mwv_r_hi_5, mwv_r_med_1, mwv_r_med_2, mwv_r_med_3, mwv_r_med_4, mwv_r_low_1,
    risk_low, risk_med, risk_high, trimf, riskPt, gridPt, symLoU, symStep, min_def, max_def]

/-- Aggregated Mamdani curve value at risk sample 13 for the query (110, 7). -/
lemma aggV13 : aggregated 110 7 13 = 0 := by
  norm_num [aggregated, act_hi, act_med, act_low, mwv_r_hi_1, mwv_r_hi_2, mwv_r_hi_3, mwv_r_hi_4, mwv_r_hi_5, mwv_r_med_1, mwv_r_med_2, mwv_r_med_3, mwv_r_med_4, mwv_r_low_1,
    risk_low, risk_med, risk_high, trimf, riskPt, gridPt, symLoU, symStep, min_def, max_def]

/-- Aggregated Mamdani curve value at risk sample 14 for the query (110, 7). -/
lemma aggV14 : aggregated 110 7 14 = 0 := by
  norm_num [aggregated, act_hi, act_med, act_low, mwv_r_hi_1, mwv_r_hi_2, mwv_r_hi_3, mwv_r_hi_4, mwv_r_hi_5, mwv_r_med_1, mwv_r_med_2, mwv_r_med_3, mwv_r_med_4, mwv_r_low_1,
    risk_low, risk_med, risk_high, trimf, riskPt, gridPt, symLoU, symStep, min_def, max_def]

/-- Aggregated Mamdani curve value at risk sample 15 for the query (110, 7). -/
lemma aggV15 : aggregated 110 7 15 = 0 := by
  norm_num [aggregated, act_hi, act_med, act_low, mwv_r_hi_1, mwv_r_hi_2, mwv_r_hi_3, mwv_r_hi_4, mwv_r_hi_5, mwv_r_med_1, mwv_r_med_2, mwv_r_med_3, mwv_r_med_4, mwv_r_low_1,
    risk_low, risk_med, risk_high, trimf, riskPt, gridPt, symLoU, symStep, min_def, max_def]

/-- Aggregated Mamdani curve value at risk sample 16 for the query (110, 7). -/
lemma aggV16 : aggregated 110 7 16 = 0 := by
  norm_num [aggregated, act_hi, act_med, act_low, mwv_r_hi_1, mwv_r_hi_2, mwv_r_hi_3, mwv_r_hi_4, mwv_r_hi_5, mwv_r_med_1, mwv_r_med_2, mwv_r_med_3, mwv_r_med_4, mwv_r_low_1,
    risk_low, risk_med, risk_high, trimf, riskPt, gridPt, symLoU, symStep, min_def, max_def]

/-- Aggregated Mamdani curve value at risk sample 17 for the query (110, 7). -/
lemma aggV17 : aggregated 110 7 17 = 0 := by
  norm_num [aggregated, act_hi, act_med, act_low, mwv_r_hi_1, mwv_r_hi_2, mwv_r_hi_3, mwv_r_hi_4, mwv_r_hi_5, mwv_r_med_1, mwv_r_med_2, mwv_r_med_3, mwv_r_med_4, mwv_r_low_1,
    risk_low, risk_med, risk_high, trimf, riskPt, gridPt, symLoU, symStep, min_def, max_def]

/-- Aggregated Mamdani curve value at risk sample 18 for the query (110, 7). -/
lemma aggV18 : aggregated 110 7 18 = 0 := by
  norm_num [aggregated, act_hi, act_med, act_low, mwv_r_hi_1, mwv_r_hi_2, mwv_r_hi_3, mwv_r_hi_4, mwv_r_hi_5, mwv_r_med_1, mwv_r_med_2, mwv_r_med_3, mwv_r_med_4, mwv_r_low_1,
    risk_low, risk_med, risk_high, trimf, riskPt, gridPt, symLoU, symStep, min_def, max_def]

/-- Aggregated Mamdani curve value at risk sample 19 for the query (110, 7). -/
lemma aggV19 : aggregated 110 7 19 = 0 := by
  norm_num [aggregated, act_hi, act_med, act_low, mwv_r_hi_1, mwv_r_hi_2, mwv_r_hi_3, mwv_r_hi_4, mwv_r_hi_5, mwv_r_med_1, mwv_r_med_2, mwv_r_med_3, mwv_r_med_4, mwv_r_low_1,
    risk_low, risk_med, risk_high, trimf, riskPt, gridPt, symLoU, symStep, min_def, max_def]

/-- Aggregated Mamdani curve value at risk sample 20 for the query (110, 7). -/
lemma aggV20 : aggregated 110 7 20 = 0 := by
  norm_num [aggregated, act_hi, act_med, act_low, mwv_r_hi_1, mwv_r_hi_2, mwv_r_hi_3, mwv_r_hi_4, mwv_r_hi_5, mwv_r_med_1, mwv_r_med_2, mwv_r_med_3, mwv_r_med_4, mwv_r_low_1,
    risk_low, risk_med, risk_high, trimf, riskPt, gridPt, symLoU, symStep, min_def, max_def]

/-- Aggregated Mamdani curve value at risk sample 21 for the query (110, 7). -/
lemma aggV21 : aggregated 110 7 21 = 0 := by
  norm_num [aggregated, act_hi, act_med, act_low, mwv_r_hi_1, mwv_r_hi_2, mwv_r_hi_3, mwv_r_hi_4, mwv_r_hi_5, mwv_r_med_1, mwv_r_med_2, mwv_r_med_3, mwv_r_med_4, mwv_r_low_1,
    risk_low, risk_med, risk_high, trimf, riskPt, gridPt, symLoU, symStep, min_def, max_def]

/-- Aggregated Mamdani curve value at risk sample 22 for the query (110, 7). -/
lemma aggV22 : aggregated 110 7 22 = 0 := by
  norm_num [aggregated, act_hi, act_med, act_low, mwv_r_hi_1, mwv_r_hi_2, mwv_r_hi_3, mwv_r_hi_4, mwv_r_hi_5, mwv_r_med_1, mwv_r_med_2, mwv_r_med_3, mwv_r_med_4, mwv_r_low_1,
    risk_low, risk_med, risk_high, trimf, riskPt, gridPt, symLoU, symStep, min_def, max_def]

/-- Aggregated Mamdani curve value at risk sample 23 for the query (110, 7). -/
lemma aggV23 : aggregated 110 7 23 = 0 := by
  norm_num [aggregated, act_hi, act_med, act_low, mwv_r_hi_1, mwv_r_hi_2, mwv_r_hi_3, mwv_r_hi_4, mwv_r_hi_5, mwv_r_med_1, mwv_r_med_2, mwv_r_med_3, mwv_r_med_4, mwv_r_low_1,
    risk_low, risk_med, risk_high, trimf, riskPt, gridPt, symLoU, symStep, min_def, max_def]

/-- Aggregated Mamdani curve value at risk sample 24 for the query (110, 7). -/
lemma aggV24 : aggregated 110 7 24 = 0 := by
  norm_num [aggregated, act_hi, act_med, act_low, mwv_r_hi_1, mwv_r_hi_2, mwv_r_hi_3, mwv_r_hi_4, mwv_r_hi_5, mwv_r_med_1, mwv_r_med_2, mwv_r_med_3, mwv_r_med_4, mwv_r_low_1,
    risk_low, risk_med, risk_high, trimf, riskPt, gridPt, symLoU, symStep, min_def, max_def]

/-- Aggregated Mamdani curve value at risk sample 25 for the query (110, 7). -/
lemma aggV25 : aggregated 110 7 25 = 0 := by
  norm_num [aggregated, act_hi, act_med, act_low, mwv_r_hi_1, mwv_r_hi_2, mwv_r_hi_3, mwv_r_hi_4, mwv_r_hi_5, mwv_r_med_1, mwv_r_med_2, mwv_r_med_3, mwv_r_med_4, mwv_r_low_1,
    risk_low, risk_med, risk_high, trimf, riskPt, gridPt, symLoU, symStep, min_def, max_def]

/-- Aggregated Mamdani curve value at risk sample 26 for the query (110, 7). -/
lemma aggV26 : aggregated 110 7 26 = 0 := by
  norm_num [aggregated, act_hi, act_med, act_low, mwv_r_hi_1, mwv_r_hi_2, mwv_r_hi_3, mwv_r_hi_4, mwv_r_hi_5, mwv_r_med_1, mwv_r_med_2, mwv_r_med_3, mwv_r_med_4, mwv_r_low_1,
    risk_low, risk_med, risk_high, trimf, riskPt, gridPt, symLoU, symStep, min_def, max_def]

/-- Aggregated Mamdani curve value at risk sample 27 for the query (110, 7). -/
lemma aggV27 : aggregated 110 7 27 = 0 := by
  norm_num [aggregated, act_hi, act_med, act_low, mwv_r_hi_1, mwv_r_hi_2, mwv_r_hi_3, mwv_r_hi_4, mwv_r_hi_5, mwv_r_med_1, mwv_r_med_2, mwv_r_med_3, mwv_r_med_4, mwv_r_low_1,
    risk_low, risk_med, risk_high, trimf, riskPt, gridPt, symLoU, symStep, min_def, max_def]

/-- Aggregated Mamdani curve value at risk sample 28 for the query (110, 7). -/
lemma aggV28 : aggregated 110 7 28 = 0 := by
  norm_num [aggregated, act_hi, act_med, act_low, mwv_r_hi_1, mwv_r_hi_2, mwv_r_hi_3, mwv_r_hi_4, mwv_r_hi_5, mwv_r_med_1, mwv_r_med_2, mwv_r_med_3, mwv_r_med_4, mwv_r_low_1,
    risk_low, risk_med, risk_high, trimf, riskPt, gridPt, symLoU, symStep, min_def, max_def]

/-- Aggregated Mamdani curve value at risk sample 29 for the query (110, 7). -/
lemma aggV29 : aggregated 110 7 29 = 0 := by
  norm_num [aggregated, act_hi, act_med, act_low, mwv_r_hi_1, mwv_r_hi_2, mwv_r_hi_3, mwv_r_hi_4, mwv_r_hi_5, mwv_r_med_1, mwv_r_med_2, mwv_r_med_3, mwv_r_med_4, mwv_r_low_1,
    risk_low, risk_med, risk_high, trimf, riskPt, gridPt, symLoU, symStep, min_def, max_def]

/-- Aggregated Mamdani curve value at risk sample 30 for the query (110, 7). -/
lemma aggV30 : aggregated 110 7 30 = 0 := by
  norm_num [aggregated, act_hi, act_med, act_low, mwv_r_hi_1, mwv_r_hi_2, mwv_r_hi_3, mwv_r_hi_4, mwv_r_hi_5, mwv_r_med_1, mwv_r_med_2, mwv_r_med_3, mwv_r_med_4, mwv_r_low_1,
    risk_low, risk_med, risk_high, trimf, riskPt, gridPt, symLoU, symStep, min_def, max_def]

/-- Aggregated Mamdani curve value at risk sample 31 for the query (110, 7). -/
lemma aggV31 : aggregated 110 7 31 = 0 := by
  norm_num [aggregated, act_hi, act_med, act_low, mwv_r_hi_1, mwv_r_hi_2, mwv_r_hi_3, mwv_r_hi_4, mwv_r_hi_5, mwv_r_med_1, mwv_r_med_2, mwv_r_med_3, mwv_r_med_4, mwv_r_low_1,
    risk_low, risk_med, risk_high, trimf, riskPt, gridPt, symLoU, symStep, min_def, max_def]

/-- Aggregated Mamdani curve value at risk sample 32 for the query (110, 7). -/
lemma aggV32 : aggregated 110 7 32 = 0 := by
  norm_num [aggregated, act_hi, act_med, act_low, mwv_r_hi_1, mwv_r_hi_2, mwv_r_hi_3, mwv_r_hi_4, mwv_r_hi_5, mwv_r_med_1, mwv_r_med_2, mwv_r_med_3, mwv_r_med_4, mwv_r_low_1,
    risk_low, risk_med, risk_high, trimf, riskPt, gridPt, symLoU, symStep, min_def, max_def]

/-- Aggregated Mamdani curve value at risk sample 33 for the query (110, 7). -/
lemma aggV33 : aggregated 110 7 33 = 0 := by
  norm_num [aggregated, act_hi, act_med, act_low, mwv_r_hi_1, mwv_r_hi_2, mwv_r_hi_3, mwv_r_hi_4, mwv_r_hi_5, mwv_r_med_1, mwv_r_med_2, mwv_r_med_3, mwv_r_med_4, mwv_r_low_1,
    risk_low, risk_med, risk_high, trimf, riskPt, gridPt, symLoU, symStep, min_def, max_def]

/-- Aggregated Mamdani curve value at risk sample 34 for the query (110, 7). -/
lemma aggV34 : aggregated 110 7 34 = 0 := by
  norm_num [aggregated, act_hi, act_med, act_low, mwv_r_hi_1, mwv_r_hi_2, mwv_r_hi_3, mwv_r_hi_4, mwv_r_hi_5, mwv_r_med_1, mwv_r_med_2, mwv_r_med_3, mwv_r_med_4, mwv_r_low_1,
    risk_low, risk_med, risk_high, trimf, riskPt, gridPt, symLoU, symStep, min_def, max_def]

/-- Aggregated Mamdani curve value at risk sample 35 for the query (110, 7). -/
lemma aggV35 : aggregated 110 7 35 = 0 := by
  norm_num [aggregated, act_hi, act_med, act_low, mwv_r_hi_1, mwv_r_hi_2, mwv_r_hi_3, mwv_r_hi_4, mwv_r_hi_5, mwv_r_med_1, mwv_r_med_2, mwv_r_med_3, mwv_r_med_4, mwv_r_low_1,
    risk_low, risk_med, risk_high, trimf, riskPt, gridPt, symLoU, symStep, min_def, max_def]

/-- Aggregated Mamdani curve value at risk sample 36 for the query (110, 7). -/
lemma aggV36 : aggregated 110 7 36 = 0 := by
  norm_num [aggregated, act_hi, act_med, act_low, mwv_r_hi_1, mwv_r_hi_2, mwv_r_hi_3, mwv_r_hi_4, mwv_r_hi_5, mwv_r_med_1, mwv_r_med_2, mwv_r_med_3, mwv_r_med_4, mwv_r_low_1,
    risk_low, risk_med, risk_high, trimf, riskPt, gridPt, symLoU, symStep, min_def, max_def]

/-- Aggregated Mamdani curve value at risk sample 37 for the query (110, 7). -/
lemma aggV37 : aggregated 110 7 37 = 0 := by
  norm_num [aggregated, act_hi, act_med, act_low, mwv_r_hi_1, mwv_r_hi_2, mwv_r_hi_3, mwv_r_hi_4, mwv_r_hi_5, mwv_r_med_1, mwv_r_med_2, mwv_r_med_3, mwv_r_med_4, mwv_r_low_1,
    risk_low, risk_med, risk_high, trimf, riskPt, gridPt, symLoU, symStep, min_def, max_def]

/-- Aggregated Mamdani curve value at risk sample 38 for the query (110, 7). -/
lemma aggV38 : aggregated 110 7 38 = 0 := by
  norm_num [aggregated, act_hi, act_med, act_low, mwv_r_hi_1, mwv_r_hi_2, mwv_r_hi_3, mwv_r_hi_4, mwv_r_hi_5, mwv_r_med_1, mwv_r_med_2, mwv_r_med_3, mwv_r_med_4, mwv_r_low_1,
    risk_low, risk_med, risk_high, trimf, riskPt, gridPt, symLoU, symStep, min_def, max_def]

/-- Aggregated Mamdani curve value at risk sample 39 for the query (110, 7). -/
lemma aggV39 : aggregated 110 7 39 = 0 := by
  norm_num [aggregated, act_hi, act_med, act_low, mwv_r_hi_1, mwv_r_hi_2, mwv_r_hi_3, mwv_r_hi_4, mwv_r_hi_5, mwv_r_med_1, mwv_r_med_2, mwv_r_med_3, mwv_r_med_4, mwv_r_low_1,
    risk_low, risk_med, risk_high, trimf, riskPt, gridPt, symLoU, symStep, min_def, max_def]

/-- Aggregated Mamdani curve value at risk sample 40 for the query (110, 7). -/
lemma aggV40 : aggregated 110 7 40 = 2/597 := by
  norm_num [aggregated, act_hi, act_med, act_low, mwv_r_hi_1, mwv_r_hi_2, mwv_r_hi_3, mwv_r_hi_4, mwv_r_hi_5, mwv_r_med_1, mwv_r_med_2, mwv_r_med_3, mwv_r_med_4, mwv_r_low_1,
    risk_low, risk_med, risk_high, trimf, riskPt, gridPt, symLoU, symStep, min_def, max_def]

/-- Aggregated Mamdani curve value at risk sample 41 for the query (110, 7). -/
lemma aggV41 : aggregated 110 7 41 = 4/199 := by
  norm_num [aggregated, act_hi, act_med, act_low, mwv_r_hi_1, mwv_r_hi_2, mwv_r_hi_3, mwv_r_hi_4, mwv_r_hi_5, mwv_r_med_1, mwv_r_med_2, mwv_r_med_3, mwv_r_med_4, mwv_r_low_1,
    risk_low, risk_med, risk_high, trimf, riskPt, gridPt, symLoU, symStep, min_def, max_def]

/-- Aggregated Mamdani curve value at risk sample 42 for the query (110, 7). -/
lemma aggV42 : aggregated 110 7 42 = 22/597 := by
  norm_num [aggregated, act_hi, act_med, act_low, mwv_r_hi_1, mwv_r_hi_2, mwv_r_hi_3, mwv_r_hi_4, mwv_r_hi_5, mwv_r_med_1, mwv_r_med_2, mwv_r_med_3, mwv_r_med_4, mwv_r_low_1,
    risk_low, risk_med, risk_high, trimf, riskPt, gridPt, symLoU, symStep, min_def, max_def]

/-- Aggregated Mamdani curve value at risk sample 43 for the query (110, 7). -/
lemma aggV43 : aggregated 110 7 43 = 32/597 := by
  norm_num [aggregated, act_hi, act_med, act_low, mwv_r_hi_1, mwv_r_hi_2, mwv_r_hi_3, mwv_r_hi_4, mwv_r_hi_5, mwv_r_med_1, mwv_r_med_2, mwv_r_med_3, mwv_r_med_4, mwv_r_low_1,
    risk_low, risk_med, risk_high, trimf, riskPt, gridPt, symLoU, symStep, min_def, max_def]

/-- Aggregated Mamdani curve value at risk sample 44 for the query (110, 7). -/
lemma aggV44 : aggregated 110 7 44 = 14/199 := by
  norm_num [aggregated, act_hi, act_med, act_low, mwv_r_hi_1, mwv_r_hi_2, mwv_r_hi_3, mwv_r_hi_4, mwv_r_hi_5, mwv_r_med_1, mwv_r_med_2, mwv_r_med_3, mwv_r_med_4, mwv_r_low_1,
    risk_low, risk_med, risk_high, trimf, riskPt, gridPt, symLoU, symStep, min_def, max_def]

/-- Aggregated Mamdani curve value at risk sample 45 for the query (110, 7). -/
lemma aggV45 : aggregated 110 7 45 = 52/597 := by
  norm_num [aggregated, act_hi, act_med, act_low, mwv_r_hi_1, mwv_r_hi_2, mwv_r_hi_3, mwv_r_hi_4, mwv_r_hi_5, mwv_r_med_1, mwv_r_med_2, mwv_r_med_3, mwv_r_med_4, mwv_r_low_1,
    risk_low, risk_med, risk_high, trimf, riskPt, gridPt, symLoU, symStep, min_def, max_def]

/-- Aggregated Mamdani curve value at risk sample 46 for the query (110, 7). -/
lemma aggV46 : aggregated 110 7 46 = 62/597 := by
  norm_num [aggregated, act_hi, act_med, act_low, mwv_r_hi_1, mwv_r_hi_2, mwv_r_hi_3, mwv_r_hi_4, mwv_r_hi_5, mwv_r_med_1, mwv_r_med_2, mwv_r_med_3, mwv_r_med_4, mwv_r_low_1,
    risk_low, risk_med, risk_high, trimf, riskPt, gridPt, symLoU, symStep, min_def, max_def]

/-- Aggregated Mamdani curve value at risk sample 47 for the query (110, 7). -/
lemma aggV47 : aggregated 110 7 47 = 24/199 := by
  norm_num [aggregated, act_hi, act_med, act_low, mwv_r_hi_1, mwv_r_hi_2, mwv_r_hi_3, mwv_r_hi_4, mwv_r_hi_5, mwv_r_med_1, mwv_r_med_2, mwv_r_med_3, mwv_r_med_4, mwv_r_low_1,
    risk_low, risk_med, risk_high, trimf, riskPt, gridPt, symLoU, symStep, min_def, max_def]

/-- Aggregated Mamdani curve value at risk sample 48 for the query (110, 7). -/
lemma aggV48 : aggregated 110 7 48 = 82/597 := by
  norm_num [aggregated, act_hi, act_med, act_low, mwv_r_hi_1, mwv_r_hi_2, mwv_r_hi_3, mwv_r_hi_4, mwv_r_hi_5, mwv_r_med_1, mwv_r_med_2, mwv_r_med_3, mwv_r_med_4, mwv_r_low_1,
    risk_low, risk_med, risk_high, trimf, riskPt, gridPt, symLoU, symStep, min_def, max_def]

/-- Aggregated Mamdani curve value at risk sample 49 for the query (110, 7). -/
lemma aggV49 : aggregated 110 7 49 = 92/597 := by
  norm_num [aggregated, act_hi, act_med, act_low, mwv_r_hi_1, mwv_r_hi_2, mwv_r_hi_3, mwv_r_hi_4, mwv_r_hi_5, mwv_r_med_1, mwv_r_med_2, mwv_r_med_3, mwv_r_med_4, mwv_r_low_1,
    risk_low, risk_med, risk_high, trimf, riskPt, gridPt, symLoU, symStep, min_def, max_def]

/-- Aggregated Mamdani curve value at risk sample 50 for the query (110, 7). -/
lemma aggV50 : aggregated 110 7 50 = 34/199 := by
  norm_num [aggregated, act_hi, act_med, act_low, mwv_r_hi_1, mwv_r_hi_2, mwv_r_hi_3, mwv_r_hi_4, mwv_r_hi_5, mwv_r_med_1, mwv_r_med_2, mwv_r_med_3, mwv_r_med_4, mwv_r_low_1,
    risk_low, risk_med, risk_high, trimf, riskPt, gridPt, symLoU, symStep, min_def, max_def]

/-- Aggregated Mamdani curve value at risk sample 51 for the query (110, 7). -/
lemma aggV51 : aggregated 110 7 51 = 112/597 := by
  norm_num [aggregated, act_hi, act_med, act_low, mwv_r_hi_1, mwv_r_hi_2, mwv_r_hi_3, mwv_r_hi_4, mwv_r_hi_5, mwv_r_med_1, mwv_r_med_2, mwv_r_med_3, mwv_r_med_4, mwv_r_low_1,
    risk_low, risk_med, risk_high, trimf, riskPt, gridPt, symLoU, symStep, min_def, max_def]

/-- Aggregated Mamdani curve value at risk sample 52 for the query (110, 7). -/
lemma aggV52 : aggregated 110 7 52 = 122/597 := by
  norm_num [aggregated, act_hi, act_med, act_low, mwv_r_hi_1, mwv_r_hi_2, mwv_r_hi_3, mwv_r_hi_4, mwv_r_hi_5, mwv_r_med_1, mwv_r_med_2, mwv_r_med_3, mwv_r_med_4, mwv_r_low_1,
    risk_low, risk_med, risk_high, trimf, riskPt, gridPt, symLoU, symStep, min_def, max_def]

/-- Aggregated Mamdani curve value at risk sample 53 for the query (110, 7). -/
lemma aggV53 : aggregated 110 7 53 = 44/199 := by
  norm_num [aggregated, act_hi, act_med, act_low, mwv_r_hi_1, mwv_r_hi_2, mwv_r_hi_3, mwv_r_hi_4, mwv_r_hi_5, mwv_r_med_1, mwv_r_med_2, mwv_r_med_3, mwv_r_med_4, mwv_r_low_1,
    risk_low, risk_med, risk_high, trimf, riskPt, gridPt, symLoU, symStep, min_def, max_def]

/-- Aggregated Mamdani curve value at risk sample 54 for the query (110, 7). -/
lemma aggV54 : aggregated 110 7 54 = 142/597 := by
  norm_num [aggregated, act_hi, act_med, act_low, mwv_r_hi_1, mwv_r_hi_2, mwv_r_hi_3, mwv_r_hi_4, mwv_r_hi_5, mwv_r_med_1, mwv_r_med_2, mwv_r_med_3, mwv_r_med_4, mwv_r_low_1,
    risk_low, risk_med, risk_high, trimf, riskPt, gridPt, symLoU, symStep, min_def, max_def]

/-- Aggregated Mamdani curve value at risk sample 55 for the query (110, 7). -/
lemma aggV55 : aggregated 110 7 55 = 152/597 := by
  norm_num [aggregated, act_hi, act_med, act_low, mwv_r_hi_1, mwv_r_hi_2, mwv_r_hi_3, mwv_r_hi_4, mwv_r_hi_5, mwv_r_med_1, mwv_r_med_2, mwv_r_med_3, mwv_r_med_4, mwv_r_low_1,
    risk_low, risk_med, risk_high, trimf, riskPt, gridPt, symLoU, symStep, min_def, max_def]

/-- Aggregated Mamdani curve value at risk sample 56 for the query (110, 7). -/
lemma aggV56 : aggregated 110 7 56 = 54/199 := by
  norm_num [aggregated, act_hi, act_med, act_low, mwv_r_hi_1, mwv_r_hi_2, mwv_r_hi_3, mwv_r_hi_4, mwv_r_hi_5, mwv_r_med_1, mwv_r_med_2, mwv_r_med_3, mwv_r_med_4, mwv_r_low_1,
    risk_low, risk_med, risk_high, trimf, riskPt, gridPt, symLoU, symStep, min_def, max_def]

/-- Aggregated Mamdani curve value at risk sample 57 for the query (110, 7). -/
lemma aggV57 : aggregated 110 7 57 = 172/597 := by
  norm_num [aggregated, act_hi, act_med, act_low, mwv_r_hi_1, mwv_r_hi_2, mwv_r_hi_3, mwv_r_hi_4, mwv_r_hi_5, mwv_r_med_1, mwv_r_med_2, mwv_r_med_3, mwv_r_med_4, mwv_r_low_1,
    risk_low, risk_med, risk_high, trimf, riskPt, gridPt, symLoU, symStep, min_def, max_def]

/-- Aggregated Mamdani curve value at risk sample 58 for the query (110, 7). -/
lemma aggV58 : aggregated 110 7 58 = 182/597 := by
  norm_num [aggregated, act_hi, act_med, act_low, mwv_r_hi_1, mwv_r_hi_2, mwv_r_hi_3, mwv_r_hi_4, mwv_r_hi_5, mwv_r_med_1, mwv_r_med_2, mwv_r_med_3, mwv_r_med_4, mwv_r_low_1,
    risk_low, risk_med, risk_high, trimf, riskPt, gridPt, symLoU, symStep, min_def, max_def]

/-- Aggregated Mamdani curve value at risk sample 59 for the query (110, 7). -/
lemma aggV59 : aggregated 110 7 59 = 64/199 := by
  norm_num [aggregated, act_hi, act_med, act_low, mwv_r_hi_1, mwv_r_hi_2, mwv_r_hi_3, mwv_r_hi_4, mwv_r_hi_5, mwv_r_med_1, mwv_r_med_2, mwv_r_med_3, mwv_r_med_4, mwv_r_low_1,
    risk_low, risk_med, risk_high, trimf, riskPt, gridPt, symLoU, symStep, min_def, max_def]

/-- Aggregated Mamdani curve value at risk sample 60 for the query (110, 7). -/
lemma aggV60 : aggregated 110 7 60 = 202/597 := by
  norm_num [aggregated, act_hi, act_med, act_low, mwv_r_hi_1, mwv_r_hi_2, mwv_r_hi_3, mwv_r_hi_4, mwv_r_hi_5, mwv_r_med_1, mwv_r_med_2, mwv_r_med_3, mwv_r_med_4, mwv_r_low_1,
    risk_low, risk_med, risk_high, trimf, riskPt, gridPt, symLoU, symStep, min_def, max_def]

/-- Aggregated Mamdani curve value at risk sample 61 for the query (110, 7). -/
lemma aggV61 : aggregated 110 7 61 = 212/597 := by
  norm_num [aggregated, act_hi, act_med, act_low, mwv_r_hi_1, mwv_r_hi_2, mwv_r_hi_3, mwv_r_hi_4, mwv_r_hi_5, mwv_r_med_1, mwv_r_med_2, mwv_r_med_3, mwv_r_med_4, mwv_r_low_1,
    risk_low, risk_med, risk_high, trimf, riskPt, gridPt, symLoU, symStep, min_def, max_def]

/-- Aggregated Mamdani curve value at risk sample 62 for the query (110, 7). -/
lemma aggV62 : aggregated 110 7 62 = 74/199 := by
  norm_num [aggregated, act_hi, act_med, act_low, mwv_r_hi_1, mwv_r_hi_2, mwv_r_hi_3, mwv_r_hi_4, mwv_r_hi_5, mwv_r_med_1, mwv_r_med_2, mwv_r_med_3, mwv_r_med_4, mwv_r_low_1,
    risk_low, risk_med, risk_high, trimf, riskPt, gridPt, symLoU, symStep, min_def, max_def]

/-- Aggregated Mamdani curve value at risk sample 63 for the query (110, 7). -/
lemma aggV63 : aggregated 110 7 63 = 232/597 := by
  norm_num [aggregated, act_hi, act_med, act_low, mwv_r_hi_1, mwv_r_hi_2, mwv_r_hi_3, mwv_r_hi_4, mwv_r_hi_5, mwv_r_med_1, mwv_r_med_2, mwv_r_med_3, mwv_r_med_4, mwv_r_low_1,
    risk_low, risk_med, risk_high, trimf, riskPt, gridPt, symLoU, symStep, min_def, max_def]

/-- Aggregated Mamdani curve value at risk sample 64 for the query (110, 7). -/
lemma aggV64 : aggregated 110 7 64 = 242/597 := by
  norm_num [aggregated, act_hi, act_med, act_low, mwv_r_hi_1, mwv_r_hi_2, mwv_r_hi_3, mwv_r_hi_4, mwv_r_hi_5, mwv_r_med_1, mwv_r_med_2, mwv_r_med_3, mwv_r_med_4, mwv_r_low_1,
    risk_low, risk_med, risk_high, trimf, riskPt, gridPt, symLoU, symStep, min_def, max_def]

/-- Aggregated Mamdani curve value at risk sample 65 for the query (110, 7). -/
lemma aggV65 : aggregated 110 7 65 = 84/199 := by
  norm_num [aggregated, act_hi, act_med, act_low, mwv_r_hi_1, mwv_r_hi_2, mwv_r_hi_3, mwv_r_hi_4, mwv_r_hi_5, mwv_r_med_1, mwv_r_med_2, mwv_r_med_3, mwv_r_med_4, mwv_r_low_1,
    risk_low, risk_med, risk_high, trimf, riskPt, gridPt, symLoU, symStep, min_def, max_def]

/-- Aggregated Mamdani curve value at risk sample 66 for the query (110, 7). -/
lemma aggV66 : aggregated 110 7 66 = 262/597 := by
  norm_num [aggregated, act_hi, act_med, act_low, mwv_r_hi_1, mwv_r_hi_2, mwv_r_hi_3, mwv_r_hi_4, mwv_r_hi_5, mwv_r_med_1, mwv_r_med_2, mwv_r_med_3, mwv_r_med_4, mwv_r_low_1,
    risk_low, risk_med, risk_high, trimf, riskPt, gridPt, symLoU, symStep, min_def, max_def]

/-- Aggregated Mamdani curve value at risk sample 67 for the query (110, 7). -/
lemma aggV67 : aggregated 110 7 67 = 272/597 := by
  norm_num [aggregated, act_hi, act_med, act_low, mwv_r_hi_1, mwv_r_hi_2, mwv_r_hi_3, mwv_r_hi_4, mwv_r_hi_5, mwv_r_med_1, mwv_r_med_2, mwv_r_med_3, mwv_r_med_4, mwv_r_low_1,
    risk_low, risk_med, risk_high, trimf, riskPt, gridPt, symLoU, symStep, min_def, max_def]

/-- Aggregated Mamdani curve value at risk sample 68 for the query (110, 7). -/
lemma aggV68 : aggregated 110 7 68 = 2705117/5731236 := by
  norm_num [aggregated, act_hi, act_med, act_low, mwv_r_hi_1, mwv_r_hi_2, mwv_r_hi_3, mwv_r_hi_4, mwv_r_hi_5, mwv_r_med_1, mwv_r_med_2, mwv_r_med_3, mwv_r_med_4, mwv_r_low_1,
    risk_low, risk_med, risk_high, trimf, riskPt, gridPt, symLoU, symStep, min_def, max_def]

/-- Aggregated Mamdani curve value at risk sample 69 for the query (110, 7). -/
lemma aggV69 : aggregated 110 7 69 = 2705117/5731236 := by
  norm_num [aggregated, act_hi, act_med, act_low, mwv_r_hi_1, mwv_r_hi_2, mwv_r_hi_3, mwv_r_hi_4, mwv_r_hi_5, mwv_r_med_1, mwv_r_med_2, mwv_r_med_3, mwv_r_med_4, mwv_r_low_1,
    risk_low, risk_med, risk_high, trimf, riskPt, gridPt, symLoU, symStep, min_def, max_def]

/-- Aggregated Mamdani curve value at risk sample 70 for the query (110, 7). -/
lemma aggV70 : aggregated 110 7 70 = 2705117/5731236 := by
  norm_num [aggregated, act_hi, act_med, act_low, mwv_r_hi_1, mwv_r_hi_2, mwv_r_hi_3, mwv_r_hi_4, mwv_r_hi_5, mwv_r_med_1, mwv_r_med_2, mwv_r_med_3, mwv_r_med_4, mwv_r_low_1,
    risk_low, risk_med, risk_high, trimf, riskPt, gridPt, symLoU, symStep, min_def, max_def]

/-- Aggregated Mamdani curve value at risk sample 71 for the query (110, 7). -/
lemma aggV71 : aggregated 110 7 71 = 2705117/5731236 := by
  norm_num [aggregated, act_hi, act_med, act_low, mwv_r_hi_1, mwv_r_hi_2, mwv_r_hi_3, mwv_r_hi_4, mwv_r_hi_5, mwv_r_med_1, mwv_r_med_2, mwv_r_med_3, mwv_r_med_4, mwv_r_low_1,
    risk_low, risk_med, risk_high, trimf, riskPt, gridPt, symLoU, symStep, min_def, max_def]

/-- Aggregated Mamdani curve value at risk sample 72 for the query (110, 7). -/
lemma aggV72 : aggregated 110 7 72 = 2705117/5731236 := by
  norm_num [aggregated, act_hi, act_med, act_low, mwv_r_hi_1, mwv_r_hi_2, mwv_r_hi_3, mwv_r_hi_4, mwv_r_hi_5, mwv_r_med_1, mwv_r_med_2, mwv_r_med_3, mwv_r_med_4, mwv_r_low_1,
    risk_low, risk_med, risk_high, trimf, riskPt, gridPt, symLoU, symStep, min_def, max_def]

/-- Aggregated Mamdani curve value at risk sample 73 for the query (110, 7). -/
lemma aggV73 : aggregated 110 7 73 = 2705117/5731236 := by
  norm_num [aggregated, act_hi, act_med, act_low, mwv_r_hi_1, mwv_r_hi_2, mwv_r_hi_3, mwv_r_hi_4, mwv_r_hi_5, mwv_r_med_1, mwv_r_med_2, mwv_r_med_3, mwv_r_med_4, mwv_r_low_1,
    risk_low, risk_med, risk_high, trimf, riskPt, gridPt, symLoU, symStep, min_def, max_def]

/-- Aggregated Mamdani curve value at risk sample 74 for the query (110, 7). -/
lemma aggV74 : aggregated 110 7 74 = 2705117/5731236 := by
  norm_num [aggregated, act_hi, act_med, act_low, mwv_r_hi_1, mwv_r_hi_2, mwv_r_hi_3, mwv_r_hi_4, mwv_r_hi_5, mwv_r_med_1, mwv_r_med_2, mwv_r_med_3, mwv_r_med_4, mwv_r_low_1,
    risk_low, risk_med, risk_high, trimf, riskPt, gridPt, symLoU, symStep, min_def, max_def]

/-- Aggregated Mamdani curve value at risk sample 75 for the query (110, 7). -/
lemma aggV75 : aggregated 110 7 75 = 2705117/5731236 := by
  norm_num [aggregated, act_hi, act_med, act_low, mwv_r_hi_1, mwv_r_hi_2, mwv_r_hi_3, mwv_r_hi_4, mwv_r_hi_5, mwv_r_med_1, mwv_r_med_2, mwv_r_med_3, mwv_r_med_4, mwv_r_low_1,
    risk_low, risk_med, risk_high, trimf, riskPt, gridPt, symLoU, symStep, min_def, max_def]

/-- Aggregated Mamdani curve value at risk sample 76 for the query (110, 7). -/
lemma aggV76 : aggregated 110 7 76 = 2705117/5731236 := by
  norm_num [aggregated, act_hi, act_med, act_low, mwv_r_hi_1, mwv_r_hi_2, mwv_r_hi_3, mwv_r_hi_4, mwv_r_hi_5, mwv_r_med_1, mwv_r_med_2, mwv_r_med_3, mwv_r_med_4, mwv_r_low_1,
    risk_low, risk_med, risk_high, trimf, riskPt, gridPt, symLoU, symStep, min_def, max_def]

/-- Aggregated Mamdani curve value at risk sample 77 for the query (110, 7). -/
lemma aggV77 : aggregated 110 7 77 = 2705117/5731236 := by
  norm_num [aggregated, act_hi, act_med, act_low, mwv_r_hi_1, mwv_r_hi_2, mwv_r_hi_3, mwv_r_hi_4, mwv_r_hi_5, mwv_r_med_1, mwv_r_med_2, mwv_r_med_3, mwv_r_med_4, mwv_r_low_1,
    risk_low, risk_med, risk_high, trimf, riskPt, gridPt, symLoU, symStep, min_def, max_def]

/-- Aggregated Mamdani curve value at risk sample 78 for the query (110, 7). -/
lemma aggV78 : aggregated 110 7 78 = 2705117/5731236 := by
  norm_num [aggregated, act_hi, act_med, act_low, mwv_r_hi_1, mwv_r_hi_2, mwv_r_hi_3, mwv_r_hi_4, mwv_r_hi_5, mwv_r_med_1, mwv_r_med_2, mwv_r_med_3, mwv_r_med_4, mwv_r_low_1,
    risk_low, risk_med, risk_high, trimf, riskPt, gridPt, symLoU, symStep, min_def, max_def]

/-- Aggregated Mamdani curve value at risk sample 79 for the query (110, 7). -/
lemma aggV79 : aggregated 110 7 79 = 2705117/5731236 := by
  norm_num [aggregated, act_hi, act_med, act_low, mwv_r_hi_1, mwv_r_hi_2, mwv_r_hi_3, mwv_r_hi_4, mwv_r_hi_5, mwv_r_med_1, mwv_r_med_2, mwv_r_med_3, mwv_r_med_4, mwv_r_low_1,
    risk_low, risk_med, risk_high, trimf, riskPt, gridPt, symLoU, symStep, min_def, max_def]

/-- Aggregated Mamdani curve value at risk sample 80 for the query (110, 7). -/
lemma aggV80 : aggregated 110 7 80 = 2705117/5731236 := by
  norm_num [aggregated, act_hi, act_med, act_low, mwv_r_hi_1, mwv_r_hi_2, mwv_r_hi_3, mwv_r_hi_4, mwv_r_hi_5, mwv_r_med_1, mwv_r_med_2, mwv_r_med_3, mwv_r_med_4, mwv_r_low_1,
    risk_low, risk_med, risk_high, trimf, riskPt, gridPt, symLoU, symStep, min_def, max_def]

/-- Aggregated Mamdani curve value at risk sample 81 for the query (110, 7). -/
lemma aggV81 : aggregated 110 7 81 = 2705117/5731236 := by
  norm_num [aggregated, act_hi, act_med, act_low, mwv_r_hi_1, mwv_r_hi_2, mwv_r_hi_3, mwv_r_hi_4, mwv_r_hi_5, mwv_r_med_1, mwv_r_med_2, mwv_r_med_3, mwv_r_med_4, mwv_r_low_1,
    risk_low, risk_med, risk_high, trimf, riskPt, gridPt, symLoU, symStep, min_def, max_def]

/-- Aggregated Mamdani curve value at risk sample 82 for the query (110, 7). -/
lemma aggV82 : aggregated 110 7 82 = 2705117/5731236 := by
  norm_num [aggregated, act_hi, act_med, act_low, mwv_r_hi_1, mwv_r_hi_2, mwv_r_hi_3, mwv_r_hi_4, mwv_r_hi_5, mwv_r_med_1, mwv_r_med_2, mwv_r_med_3, mwv_r_med_4, mwv_r_low_1,
    risk_low, risk_med, risk_high, trimf, riskPt, gridPt, symLoU, symStep, min_def, max_def]

/-- Aggregated Mamdani curve value at risk sample 83 for the query (110, 7). -/
lemma aggV83 : aggregated 110 7 83 = 2705117/5731236 := by
  norm_num [aggregated, act_hi, act_med, act_low, mwv_r_hi_1, mwv_r_hi_2, mwv_r_hi_3, mwv_r_hi_4, mwv_r_hi_5, mwv_r_med_1, mwv_r_med_2, mwv_r_med_3, mwv_r_med_4, mwv_r_low_1,
    risk_low, risk_med, risk_high, trimf, riskPt, gridPt, symLoU, symStep, min_def, max_def]

/-- Aggregated Mamdani curve value at risk sample 84 for the query (110, 7). -/
lemma aggV84 : aggregated 110 7 84 = 2705117/5731236 := by
  norm_num [aggregated, act_hi, act_med, act_low, mwv_r_hi_1, mwv_r_hi_2, mwv_r_hi_3, mwv_r_hi_4, mwv_r_hi_5, mwv_r_med_1, mwv_r_med_2, mwv_r_med_3, mwv_r_med_4, mwv_r_low_1,
    risk_low, risk_med, risk_high, trimf, riskPt, gridPt, symLoU, symStep, min_def, max_def]

/-- Aggregated Mamdani curve value at risk sample 85 for the query (110, 7). -/
lemma aggV85 : aggregated 110 7 85 = 2705117/5731236 := by
  norm_num [aggregated, act_hi, act_med, act_low, mwv_r_hi_1, mwv_r_hi_2, mwv_r_hi_3, mwv_r_hi_4, mwv_r_hi_5, mwv_r_med_1, mwv_r_med_2, mwv_r_med_3, mwv_r_med_4, mwv_r_low_1,
    risk_low, risk_med, risk_high, trimf, riskPt, gridPt, symLoU, symStep, min_def, max_def]

/-- Aggregated Mamdani curve value at risk sample 86 for the query (110, 7). -/
lemma aggV86 : aggregated 110 7 86 = 2705117/5731236 := by
  norm_num [aggregated, act_hi, act_med, act_low, mwv_r_hi_1, mwv_r_hi_2, mwv_r_hi_3, mwv_r_hi_4, mwv_r_hi_5, mwv_r_med_1, mwv_r_med_2, mwv_r_med_3, mwv_r_med_4, mwv_r_low_1,
    risk_low, risk_med, risk_high, trimf, riskPt, gridPt, symLoU, symStep, min_def, max_def]

/-- Aggregated Mamdani curve value at risk sample 87 for the query (110, 7). -/
lemma aggV87 : aggregated 110 7 87 = 2705117/5731236 := by
  norm_num [aggregated, act_hi, act_med, act_low, mwv_r_hi_1, mwv_r_hi_2, mwv_r_hi_3, mwv_r_hi_4, mwv_r_hi_5, mwv_r_med_1, mwv_r_med_2, mwv_r_med_3, mwv_r_med_4, mwv_r_low_1,
    risk_low, risk_med, risk_high, trimf, riskPt, gridPt, symLoU, symStep, min_def, max_def]

/-- Aggregated Mamdani curve value at risk sample 88 for the query (110, 7). -/
lemma aggV88 : aggregated 110 7 88 = 2705117/5731236 := by
  norm_num [aggregated, act_hi, act_med, act_low, mwv_r_hi_1, mwv_r_hi_2, mwv_r_hi_3, mwv_r_hi_4, mwv_r_hi_5, mwv_r_med_1, mwv_r_med_2, mwv_r_med_3, mwv_r_med_4, mwv_r_low_1,
    risk_low, risk_med, risk_high, trimf, riskPt, gridPt, symLoU, symStep, min_def, max_def]

/-- Aggregated Mamdani curve value at risk sample 89 for the query (110, 7). -/
lemma aggV89 : aggregated 110 7 89 = 2705117/5731236 := by
  norm_num [aggregated, act_hi, act_med, act_low, mwv_r_hi_1, mwv_r_hi_2, mwv_r_hi_3, mwv_r_hi_4, mwv_r_hi_5, mwv_r_med_1, mwv_r_med_2, mwv_r_med_3, mwv_r_med_4, mwv_r_low_1,
    risk_low, risk_med, risk_high, trimf, riskPt, gridPt, symLoU, symStep, min_def, max_def]

/-- Aggregated Mamdani curve value at risk sample 90 for the query (110, 7). -/
lemma aggV90 : aggregated 110 7 90 = 2705117/5731236 := by
  norm_num [aggregated, act_hi, act_med, act_low, mwv_r_hi_1, mwv_r_hi_2, mwv_r_hi_3, mwv_r_hi_4, mwv_r_hi_5, mwv_r_med_1, mwv_r_med_2, mwv_r_med_3, mwv_r_med_4, mwv_r_low_1,
    risk_low, risk_med, risk_high, trimf, riskPt, gridPt, symLoU, symStep, min_def, max_def]

/-- Aggregated Mamdani curve value at risk sample 91 for the query (110, 7). -/
lemma aggV91 : aggregated 110 7 91 = 2705117/5731236 := by
  norm_num [aggregated, act_hi, act_med, act_low, mwv_r_hi_1, mwv_r_hi_2, mwv_r_hi_3, mwv_r_hi_4, mwv_r_hi_5, mwv_r_med_1, mwv_r_med_2, mwv_r_med_3, mwv_r_med_4, mwv_r_low_1,
    risk_low, risk_med, risk_high, trimf, riskPt, gridPt, symLoU, symStep, min_def, max_def]

/-- Aggregated Mamdani curve value at risk sample 92 for the query (110, 7). -/
lemma aggV92 : aggregated 110 7 92 = 2705117/5731236 := by
  norm_num [aggregated, act_hi, act_med, act_low, mwv_r_hi_1, mwv_r_hi_2, mwv_r_hi_3, mwv_r_hi_4, mwv_r_hi_5, mwv_r_med_1, mwv_r_med_2, mwv_r_med_3, mwv_r_med_4, mwv_r_low_1,
    risk_low, risk_med, risk_high, trimf, riskPt, gridPt, symLoU, symStep, min_def, max_def]

/-- Aggregated Mamdani curve value at risk sample 93 for the query (110, 7). -/
lemma aggV93 : aggregated 110 7 93 = 2705117/5731236 := by
  norm_num [aggregated, act_hi, act_med, act_low, mwv_r_hi_1, mwv_r_hi_2, mwv_r_hi_3, mwv_r_hi_4, mwv_r_hi_5, mwv_r_med_1, mwv_r_med_2, mwv_r_med_3, mwv_r_med_4, mwv_r_low_1,
    risk_low, risk_med, risk_high, trimf, riskPt, gridPt, symLoU, symStep, min_def, max_def]

/-- Aggregated Mamdani curve value at risk sample 94 for the query (110, 7). -/
lemma aggV94 : aggregated 110 7 94 = 2705117/5731236 := by
  norm_num [aggregated, act_hi, act_med, act_low, mwv_r_hi_1, mwv_r_hi_2, mwv_r_hi_3, mwv_r_hi_4, mwv_r_hi_5, mwv_r_med_1, mwv_r_med_2, mwv_r_med_3, mwv_r_med_4, mwv_r_low_1,
    risk_low, risk_med, risk_high, trimf, riskPt, gridPt, symLoU, symStep, min_def, max_def]

/-- Aggregated Mamdani curve value at risk sample 95 for the query (110, 7). -/
lemma aggV95 : aggregated 110 7 95 = 2705117/5731236 := by
  norm_num [aggregated, act_hi, act_med, act_low, mwv_r_hi_1, mwv_r_hi_2, mwv_r_hi_3, mwv_r_hi_4, mwv_r_hi_5, mwv_r_med_1, mwv_r_med_2, mwv_r_med_3, mwv_r_med_4, mwv_r_low_1,
    risk_low, risk_med, risk_high, trimf, riskPt, gridPt, symLoU, symStep, min_def, max_def]

/-- Aggregated Mamdani curve value at risk sample 96 for the query (110, 7). -/
lemma aggV96 : aggregated 110 7 96 = 2705117/5731236 := by
  norm_num [aggregated, act_hi, act_med, act_low, mwv_r_hi_1, mwv_r_hi_2, mwv_r_hi_3, mwv_r_hi_4, mwv_r_hi_5, mwv_r_med_1, mwv_r_med_2, mwv_r_med_3, mwv_r_med_4, mwv_r_low_1,
    risk_low, risk_med, risk_high, trimf, riskPt, gridPt, symLoU, symStep, min_def, max_def]

/-- Aggregated Mamdani curve value at risk sample 97 for the query (110, 7). -/
lemma aggV97 : aggregated 110 7 97 = 2705117/5731236 := by
  norm_num [aggregated, act_hi, act_med, act_low, mwv_r_hi_1, mwv_r_hi_2, mwv_r_hi_3, mwv_r_hi_4, mwv_r_hi_5, mwv_r_med_1, mwv_r_med_2, mwv_r_med_3, mwv_r_med_4, mwv_r_low_1,
    risk_low, risk_med, risk_high, trimf, riskPt, gridPt, symLoU, symStep, min_def, max_def]

/-- Aggregated Mamdani curve value at risk sample 98 for the query (110, 7). -/
lemma aggV98 : aggregated 110 7 98 = 2705117/5731236 := by
  norm_num [aggregated, act_hi, act_med, act_low, mwv_r_hi_1, mwv_r_hi_2, mwv_r_hi_3, mwv_r_hi_4, mwv_r_hi_5, mwv_r_med_1, mwv_r_med_2, mwv_r_med_3, mwv_r_med_4, mwv_r_low_1,
    risk_low, risk_med, risk_high, trimf, riskPt, gridPt, symLoU, symStep, min_def, max_def]

/-- Aggregated Mamdani curve value at risk sample 99 for the query (110, 7). -/
lemma aggV99 : aggregated 110 7 99 = 2705117/5731236 := by
  norm_num [aggregated, act_hi, act_med, act_low, mwv_r_hi_1, mwv_r_hi_2, mwv_r_hi_3, mwv_r_hi_4, mwv_r_hi_5, mwv_r_med_1, mwv_r_med_2, mwv_r_med_3, mwv_r_med_4, mwv_r_low_1,
    risk_low, risk_med, risk_high, trimf, riskPt, gridPt, symLoU, symStep, min_def, max_def]

/-- Aggregated Mamdani curve value at risk sample 100 for the query (110, 7). -/
lemma aggV100 : aggregated 110 7 100 = 2705117/5731236 := by
  norm_num [aggregated, act_hi, act_med, act_low, mwv_r_hi_1, mwv_r_hi_2, mwv_r_hi_3, mwv_r_hi_4, mwv_r_hi_5, mwv_r_med_1, mwv_r_med_2, mwv_r_med_3, mwv_r_med_4, mwv_r_low_1,
    risk_low, risk_med, risk_high, trimf, riskPt, gridPt, symLoU, symStep, min_def, max_def]

/-- Aggregated Mamdani curve value at risk sample 101 for the query (110, 7). -/
lemma aggV101 : aggregated 110 7 101 = 2705117/5731236 := by
  norm_num [aggregated, act_hi, act_med, act_low, mwv_r_hi_1, mwv_r_hi_2, mwv_r_hi_3, mwv_r_hi_4, mwv_r_hi_5, mwv_r_med_1, mwv_r_med_2, mwv_r_med_3, mwv_r_med_4, mwv_r_low_1,
    risk_low, risk_med, risk_high, trimf, riskPt, gridPt, symLoU, symStep, min_def, max_def]

/-- Aggregated Mamdani curve value at risk sample 102 for the query (110, 7). -/
lemma aggV102 : aggregated 110 7 102 = 2705117/5731236 := by
  norm_num [aggregated, act_hi, act_med, act_low, mwv_r_hi_1, mwv_r_hi_2, mwv_r_hi_3, mwv_r_hi_4, mwv_r_hi_5, mwv_r_med_1, mwv_r_med_2, mwv_r_med_3, mwv_r_med_4, mwv_r_low_1,
    risk_low, risk_med, risk_high, trimf, riskPt, gridPt, symLoU, symStep, min_def, max_def]

/-- Aggregated Mamdani curve value at risk sample 103 for the query (110, 7). -/
lemma aggV103 : aggregated 110 7 103 = 2705117/5731236 := by
  norm_num [aggregated, act_hi, act_med, act_low, mwv_r_hi_1, mwv_r_hi_2, mwv_r_hi_3, mwv_r_hi_4, mwv_r_hi_5, mwv_r_med_1, mwv_r_med_2, mwv_r_med_3, mwv_r_med_4, mwv_r_low_1,
    risk_low, risk_med, risk_high, trimf, riskPt, gridPt, symLoU, symStep, min_def, max_def]

/-- Aggregated Mamdani curve value at risk sample 104 for the query (110, 7). -/
lemma aggV104 : aggregated 110 7 104 = 2705117/5731236 := by
  norm_num [aggregated, act_hi, act_med, act_low, mwv_r_hi_1, mwv_r_hi_2, mwv_r_hi_3, mwv_r_hi_4, mwv_r_hi_5, mwv_r_med_1, mwv_r_med_2, mwv_r_med_3, mwv_r_med_4, mwv_r_low_1,
    risk_low, risk_med, risk_high, trimf, riskPt, gridPt, symLoU, symStep, min_def, max_def]

/-- Aggregated Mamdani curve value at risk sample 105 for the query (110, 7). -/
lemma aggV105 : aggregated 110 7 105 = 2705117/5731236 := by
  norm_num [aggregated, act_hi, act_med, act_low, mwv_r_hi_1, mwv_r_hi_2, mwv_r_hi_3, mwv_r_hi_4, mwv_r_hi_5, mwv_r_med_1, mwv_r_med_2, mwv_r_med_3, mwv_r_med_4, mwv_r_low_1,
    risk_low, risk_med, risk_high, trimf, riskPt, gridPt, symLoU, symStep, min_def, max_def]

/-- Aggregated Mamdani curve value at risk sample 106 for the query (110, 7). -/
lemma aggV106 : aggregated 110 7 106 = 2705117/5731236 := by
  norm_num [aggregated, act_hi, act_med, act_low, mwv_r_hi_1, mwv_r_hi_2, mwv_r_hi_3, mwv_r_hi_4, mwv_r_hi_5, mwv_r_med_1, mwv_r_med_2, mwv_r_med_3, mwv_r_med_4, mwv_r_low_1,
    risk_low, risk_med, risk_high, trimf, riskPt, gridPt, symLoU, symStep, min_def, max_def]

/-- Aggregated Mamdani curve value at risk sample 107 for the query (110, 7). -/
lemma aggV107 : aggregated 110 7 107 = 2705117/5731236 := by
  norm_num [aggregated, act_hi, act_med, act_low, mwv_r_hi_1, mwv_r_hi_2, mwv_r_hi_3, mwv_r_hi_4, mwv_r_hi_5, mwv_r_med_1, mwv_r_med_2, mwv_r_med_3, mwv_r_med_4, mwv_r_low_1,
    risk_low, risk_med, risk_high, trimf, riskPt, gridPt, symLoU, symStep, min_def, max_def]

/-- Aggregated Mamdani curve value at risk sample 108 for the query (110, 7). -/
lemma aggV108 : aggregated 110 7 108 = 2705117/5731236 := by
  norm_num [aggregated, act_hi, act_med, act_low, mwv_r_hi_1, mwv_r_hi_2, mwv_r_hi_3, mwv_r_hi_4, mwv_r_hi_5, mwv_r_med_1, mwv_r_med_2, mwv_r_med_3, mwv_r_med_4, mwv_r_low_1,
    risk_low, risk_med, risk_high, trimf, riskPt, gridPt, symLoU, symStep, min_def, max_def]

/-- Aggregated Mamdani curve value at risk sample 109 for the query (110, 7). -/
lemma aggV109 : aggregated 110 7 109 = 2705117/5731236 := by
  norm_num [aggregated, act_hi, act_med, act_low, mwv_r_hi_1, mwv_r_hi_2, mwv_r_hi_3, mwv_r_hi_4, mwv_r_hi_5, mwv_r_med_1, mwv_r_med_2, mwv_r_med_3, mwv_r_med_4, mwv_r_low_1,
    risk_low, risk_med, risk_high, trimf, riskPt, gridPt, symLoU, symStep, min_def, max_def]

/-- Aggregated Mamdani curve value at risk sample 110 for the query (110, 7). -/
lemma aggV110 : aggregated 110 7 110 = 2705117/5731236 := by
  norm_num [aggregated, act_hi, act_med, act_low, mwv_r_hi_1, mwv_r_hi_2, mwv_r_hi_3, mwv_r_hi_4, mwv_r_hi_5, mwv_r_med_1, mwv_r_med_2, mwv_r_med_3, mwv_r_med_4, mwv_r_low_1,
    risk_low, risk_med, risk_high, trimf, riskPt, gridPt, symLoU, symStep, min_def, max_def]

/-- Aggregated Mamdani curve value at risk sample 111 for the query (110, 7). -/
lemma aggV111 : aggregated 110 7 111 = 2705117/5731236 := by
  norm_num [aggregated, act_hi, act_med, act_low, mwv_r_hi_1, mwv_r_hi_2, mwv_r_hi_3, mwv_r_hi_4, mwv_r_hi_5, mwv_r_med_1, mwv_r_med_2, mwv_r_med_3, mwv_r_med_4, mwv_r_low_1,
    risk_low, risk_med, risk_high, trimf, riskPt, gridPt, symLoU, symStep, min_def, max_def]

/-- Aggregated Mamdani curve value at risk sample 112 for the query (110, 7). -/
lemma aggV112 : aggregated 110 7 112 = 2705117/5731236 := by
  norm_num [aggregated, act_hi, act_med, act_low, mwv_r_hi_1, mwv_r_hi_2, mwv_r_hi_3, mwv_r_hi_4, mwv_r_hi_5, mwv_r_med_1, mwv_r_med_2, mwv_r_med_3, mwv_r_med_4, mwv_r_low_1,
    risk_low, risk_med, risk_high, trimf, riskPt, gridPt, symLoU, symStep, min_def, max_def]

/-- Aggregated Mamdani curve value at risk sample 113 for the query (110, 7). -/
lemma aggV113 : aggregated 110 7 113 = 2705117/5731236 := by
  norm_num [aggregated, act_hi, act_med, act_low, mwv_r_hi_1, mwv_r_hi_2, mwv_r_hi_3, mwv_r_hi_4, mwv_r_hi_5, mwv_r_med_1, mwv_r_med_2, mwv_r_med_3, mwv_r_med_4, mwv_r_low_1,
    risk_low, risk_med, risk_high, trimf, riskPt, gridPt, symLoU, symStep, min_def, max_def]

/-- Aggregated Mamdani curve value at risk sample 114 for the query (110, 7). -/
lemma aggV114 : aggregated 110 7 114 = 2705117/5731236 := by
  norm_num [aggregated, act_hi, act_med, act_low, mwv_r_hi_1, mwv_r_hi_2, mwv_r_hi_3, mwv_r_hi_4, mwv_r_hi_5, mwv_r_med_1, mwv_r_med_2, mwv_r_med_3, mwv_r_med_4, mwv_r_low_1,
    risk_low, risk_med, risk_high, trimf, riskPt, gridPt, symLoU, symStep, min_def, max_def]

/-- Aggregated Mamdani curve value at risk sample 115 for the query (110, 7). -/
lemma aggV115 : aggregated 110 7 115 = 2705117/5731236 := by
  norm_num [aggregated, act_hi, act_med, act_low, mwv_r_hi_1, mwv_r_hi_2, mwv_r_hi_3, mwv_r_hi_4, mwv_r_hi_5, mwv_r_med_1, mwv_r_med_2, mwv_r_med_3, mwv_r_med_4, mwv_r_low_1,
    risk_low, risk_med, risk_high, trimf, riskPt, gridPt, symLoU, symStep, min_def, max_def]

/-- Aggregated Mamdani curve value at risk sample 116 for the query (110, 7). -/
lemma aggV116 : aggregated 110 7 116 = 2705117/5731236 := by
  norm_num [aggregated, act_hi, act_med, act_low, mwv_r_hi_1, mwv_r_hi_2, mwv_r_hi_3, mwv_r_hi_4, mwv_r_hi_5, mwv_r_med_1, mwv_r_med_2, mwv_r_med_3, mwv_r_med_4, mwv_r_low_1,
    risk_low, risk_med, risk_high, trimf, riskPt, gridPt, symLoU, symStep, min_def, max_def]

/-- Aggregated Mamdani curve value at risk sample 117 for the query (110, 7). -/
lemma aggV117 : aggregated 110 7 117 = 2705117/5731236 := by
  norm_num [aggregated, act_hi, act_med, act_low, mwv_r_hi_1, mwv_r_hi_2, mwv_r_hi_3, mwv_r_hi_4, mwv_r_hi_5, mwv_r_med_1, mwv_r_med_2, mwv_r_med_3, mwv_r_med_4, mwv_r_low_1,
    risk_low, risk_med, risk_high, trimf, riskPt, gridPt, symLoU, symStep, min_def, max_def]

/-- Aggregated Mamdani curve value at risk sample 118 for the query (110, 7). -/
lemma aggV118 : aggregated 110 7 118 = 2705117/5731236 := by
  norm_num [aggregated, act_hi, act_med, act_low, mwv_r_hi_1, mwv_r_hi_2, mwv_r_hi_3, mwv_r_hi_4, mwv_r_hi_5, mwv_r_med_1, mwv_r_med_2, mwv_r_med_3, mwv_r_med_4, mwv_r_low_1,
    risk_low, risk_med, risk_high, trimf, riskPt, gridPt, symLoU, symStep, min_def, max_def]

/-- Aggregated Mamdani curve value at risk sample 119 for the query (110, 7). -/
lemma aggV119 : aggregated 110 7 119 = 2705117/5731236 := by
  norm_num [aggregated, act_hi, act_med, act_low, mwv_r_hi_1, mwv_r_hi_2, mwv_r_hi_3, mwv_r_hi_4, mwv_r_hi_5, mwv_r_med_1, mwv_r_med_2, mwv_r_med_3, mwv_r_med_4, mwv_r_low_1,
    risk_low, risk_med, risk_high, trimf, riskPt, gridPt, symLoU, symStep, min_def, max_def]

/-- Aggregated Mamdani curve value at risk sample 120 for the query (110, 7). -/
lemma aggV120 : aggregated 110 7 120 = 2705117/5731236 := by
  norm_num [aggregated, act_hi, act_med, act_low, mwv_r_hi_1, mwv_r_hi_2, mwv_r_hi_3, mwv_r_hi_4, mwv_r_hi_5, mwv_r_med_1, mwv_r_med_2, mwv_r_med_3, mwv_r_med_4, mwv_r_low_1,
    risk_low, risk_med, risk_high, trimf, riskPt, gridPt, symLoU, symStep, min_def, max_def]

/-- Aggregated Mamdani curve value at risk sample 121 for the query (110, 7). -/
lemma aggV121 : aggregated 110 7 121 = 2705117/5731236 := by
  norm_num [aggregated, act_hi, act_med, act_low, mwv_r_hi_1, mwv_r_hi_2, mwv_r_hi_3, mwv_r_hi_4, mwv_r_hi_5, mwv_r_med_1, mwv_r_med_2, mwv_r_med_3, mwv_r_med_4, mwv_r_low_1,
    risk_low, risk_med, risk_high, trimf, riskPt, gridPt, symLoU, symStep, min_def, max_def]

/-- Aggregated Mamdani curve value at risk sample 122 for the query (110, 7). -/
lemma aggV122 : aggregated 110 7 122 = 2705117/5731236 := by
  norm_num [aggregated, act_hi, act_med, act_low, mwv_r_hi_1, mwv_r_hi_2, mwv_r_hi_3, mwv_r_hi_4, mwv_r_hi_5, mwv_r_med_1, mwv_r_med_2, mwv_r_med_3, mwv_r_med_4, mwv_r_low_1,
    risk_low, risk_med, risk_high, trimf, riskPt, gridPt, symLoU, symStep, min_def, max_def]

/-- Aggregated Mamdani curve value at risk sample 123 for the query (110, 7). -/
lemma aggV123 : aggregated 110 7 123 = 2705117/5731236 := by
  norm_num [aggregated, act_hi, act_med, act_low, mwv_r_hi_1, mwv_r_hi_2, mwv_r_hi_3, mwv_r_hi_4, mwv_r_hi_5, mwv_r_med_1, mwv_r_med_2, mwv_r_med_3, mwv_r_med_4, mwv_r_low_1,
    risk_low, risk_med, risk_high, trimf, riskPt, gridPt, symLoU, symStep, min_def, max_def]

/-- Aggregated Mamdani curve value at risk sample 124 for the query (110, 7). -/
lemma aggV124 : aggregated 110 7 124 = 2705117/5731236 := by
  norm_num [aggregated, act_hi, act_med, act_low, mwv_r_hi_1, mwv_r_hi_2, mwv_r_hi_3, mwv_r_hi_4, mwv_r_hi_5, mwv_r_med_1, mwv_r_med_2, mwv_r_med_3, mwv_r_med_4, mwv_r_low_1,
    risk_low, risk_med, risk_high, trimf, riskPt, gridPt, symLoU, symStep, min_def, max_def]

/-- Aggregated Mamdani curve value at risk sample 125 for the query (110, 7). -/
lemma aggV125 : aggregated 110 7 125 = 2705117/5731236 := by
  norm_num [aggregated, act_hi, act_med, act_low, mwv_r_hi_1, mwv_r_hi_2, mwv_r_hi_3, mwv_r_hi_4, mwv_r_hi_5, mwv_r_med_1, mwv_r_med_2, mwv_r_med_3, mwv_r_med_4, mwv_r_low_1,
    risk_low, risk_med, risk_high, trimf, riskPt, gridPt, symLoU, symStep, min_def, max_def]

/-- Aggregated Mamdani curve value at risk sample 126 for the query (110, 7). -/
lemma aggV126 : aggregated 110 7 126 = 2705117/5731236 := by
  norm_num [aggregated, act_hi, act_med, act_low, mwv_r_hi_1, mwv_r_hi_2, mwv_r_hi_3, mwv_r_hi_4, mwv_r_hi_5, mwv_r_med_1, mwv_r_med_2, mwv_r_med_3, mwv_r_med_4, mwv_r_low_1,
    risk_low, risk_med, risk_high, trimf, riskPt, gridPt, symLoU, symStep, min_def, max_def]

/-- Aggregated Mamdani curve value at risk sample 127 for the query (110, 7). -/
lemma aggV127 : aggregated 110 7 127 = 2705117/5731236 := by
  norm_num [aggregated, act_hi, act_med, act_low, mwv_r_hi_1, mwv_r_hi_2, mwv_r_hi_3, mwv_r_hi_4, mwv_r_hi_5, mwv_r_med_1, mwv_r_med_2, mwv_r_med_3, mwv_r_med_4, mwv_r_low_1,
    risk_low, risk_med, risk_high, trimf, riskPt, gridPt, symLoU, symStep, min_def, max_def]

/-- Aggregated Mamdani curve value at risk sample 128 for the query (110, 7). -/
lemma aggV128 : aggregated 110 7 128 = 2705117/5731236 := by
  norm_num [aggregated, act_hi, act_med, act_low, mwv_r_hi_1, mwv_r_hi_2, mwv_r_hi_3, mwv_r_hi_4, mwv_r_hi_5, mwv_r_med_1, mwv_r_med_2, mwv_r_med_3, mwv_r_med_4, mwv_r_low_1,
    risk_low, risk_med, risk_high, trimf, riskPt, gridPt, symLoU, symStep, min_def, max_def]

/-- Aggregated Mamdani curve value at risk sample 129 for the query (110, 7). -/
lemma aggV129 : aggregated 110 7 129 = 2705117/5731236 := by
  norm_num [aggregated, act_hi, act_med, act_low, mwv_r_hi_1, mwv_r_hi_2, mwv_r_hi_3, mwv_r_hi_4, mwv_r_hi_5, mwv_r_med_1, mwv_r_med_2, mwv_r_med_3, mwv_r_med_4, mwv_r_low_1,
    risk_low, risk_med, risk_high, trimf, riskPt, gridPt, symLoU, symStep, min_def, max_def]

/-- Aggregated Mamdani curve value at risk sample 130 for the query (110, 7). -/
lemma aggV130 : aggregated 110 7 130 = 2705117/5731236 := by
  norm_num [aggregated, act_hi, act_med, act_low, mwv_r_hi_1, mwv_r_hi_2, mwv_r_hi_3, mwv_r_hi_4, mwv_r_hi_5, mwv_r_med_1, mwv_r_med_2, mwv_r_med_3, mwv_r_med_4, mwv_r_low_1,
    risk_low, risk_med, risk_high, trimf, riskPt, gridPt, symLoU, symStep, min_def, max_def]

/-- Aggregated Mamdani curve value at risk sample 131 for the query (110, 7). -/
lemma aggV131 : aggregated 110 7 131 = 2705117/5731236 := by
  norm_num [aggregated, act_hi, act_med, act_low, mwv_r_hi_1, mwv_r_hi_2, mwv_r_hi_3, mwv_r_hi_4, mwv_r_hi_5, mwv_r_med_1, mwv_r_med_2, mwv_r_med_3, mwv_r_med_4, mwv_r_low_1,
    risk_low, risk_med, risk_high, trimf, riskPt, gridPt, symLoU, symStep, min_def, max_def]

/-- Aggregated Mamdani curve value at risk sample 132 for the query (110, 7). -/
lemma aggV132 : aggregated 110 7 132 = 272/597 := by
  norm_num [aggregated, act_hi, act_med, act_low, mwv_r_hi_1, mwv_r_hi_2, mwv_r_hi_3, mwv_r_hi_4, mwv_r_hi_5, mwv_r_med_1, mwv_r_med_2, mwv_r_med_3, mwv_r_med_4, mwv_r_low_1,
    risk_low, risk_med, risk_high, trimf, riskPt, gridPt, symLoU, symStep, min_def, max_def]

/-- Aggregated Mamdani curve value at risk sample 133 for the query (110, 7). -/
lemma aggV133 : aggregated 110 7 133 = 262/597 := by
  norm_num [aggregated, act_hi, act_med, act_low, mwv_r_hi_1, mwv_r_hi_2, mwv_r_hi_3, mwv_r_hi_4, mwv_r_hi_5, mwv_r_med_1, mwv_r_med_2, mwv_r_med_3, mwv_r_med_4, mwv_r_low_1,
    risk_low, risk_med, risk_high, trimf, riskPt, gridPt, symLoU, symStep, min_def, max_def]

/-- Aggregated Mamdani curve value at risk sample 134 for the query (110, 7). -/
lemma aggV134 : aggregated 110 7 134 = 84/199 := by
  norm_num [aggregated, act_hi, act_med, act_low, mwv_r_hi_1, mwv_r_hi_2, mwv_r_hi_3, mwv_r_hi_4, mwv_r_hi_5, mwv_r_med_1, mwv_r_med_2, mwv_r_med_3, mwv_r_med_4, mwv_r_low_1,
    risk_low, risk_med, risk_high, trimf, riskPt, gridPt, symLoU, symStep, min_def, max_def]

/-- Aggregated Mamdani curve value at risk sample 135 for the query (110, 7). -/
lemma aggV135 : aggregated 110 7 135 = 242/597 := by
  norm_num [aggregated, act_hi, act_med, act_low, mwv_r_hi_1, mwv_r_hi_2, mwv_r_hi_3, mwv_r_hi_4, mwv_r_hi_5, mwv_r_med_1, mwv_r_med_2, mwv_r_med_3, mwv_r_med_4, mwv_r_low_1,
    risk_low, risk_med, risk_high, trimf, riskPt, gridPt, symLoU, symStep, min_def, max_def]

/-- Aggregated Mamdani curve value at risk sample 136 for the query (110, 7). -/
lemma aggV136 : aggregated 110 7 136 = 232/597 := by
  norm_num [aggregated, act_hi, act_med, act_low, mwv_r_hi_1, mwv_r_hi_2, mwv_r_hi_3, mwv_r_hi_4, mwv_r_hi_5, mwv_r_med_1, mwv_r_med_2, mwv_r_med_3, mwv_r_med_4, mwv_r_low_1,
    risk_low, risk_med, risk_high, trimf, riskPt, gridPt, symLoU, symStep, min_def, max_def]

/-- Aggregated Mamdani curve value at risk sample 137 for the query (110, 7). -/
lemma aggV137 : aggregated 110 7 137 = 74/199 := by
  norm_num [aggregated, act_hi, act_med, act_low, mwv_r_hi_1, mwv_r_hi_2, mwv_r_hi_3, mwv_r_hi_4, mwv_r_hi_5, mwv_r_med_1, mwv_r_med_2, mwv_r_med_3, mwv_r_med_4, mwv_r_low_1,
    risk_low, risk_med, risk_high, trimf, riskPt, gridPt, symLoU, symStep, min_def, max_def]

/-- Aggregated Mamdani curve value at risk sample 138 for the query (110, 7). -/
lemma aggV138 : aggregated 110 7 138 = 212/597 := by
  norm_num [aggregated, act_hi, act_med, act_low, mwv_r_hi_1, mwv_r_hi_2, mwv_r_hi_3, mwv_r_hi_4, mwv_r_hi_5, mwv_r_med_1, mwv_r_med_2, mwv_r_med_3, mwv_r_med_4, mwv_r_low_1,
    risk_low, risk_med, risk_high, trimf, riskPt, gridPt, symLoU, symStep, min_def, max_def]

/-- Aggregated Mamdani curve value at risk sample 139 for the query (110, 7). -/
lemma aggV139 : aggregated 110 7 139 = 202/597 := by
  norm_num [aggregated, act_hi, act_med, act_low, mwv_r_hi_1, mwv_r_hi_2, mwv_r_hi_3, mwv_r_hi_4, mwv_r_hi_5, mwv_r_med_1, mwv_r_med_2, mwv_r_med_3, mwv_r_med_4, mwv_r_low_1,
    risk_low, risk_med, risk_high, trimf, riskPt, gridPt, symLoU, symStep, min_def, max_def]

/-- Aggregated Mamdani curve value at risk sample 140 for the query (110, 7). -/
lemma aggV140 : aggregated 110 7 140 = 64/199 := by
  norm_num [aggregated, act_hi, act_med, act_low, mwv_r_hi_1, mwv_r_hi_2, mwv_r_hi_3, mwv_r_hi_4, mwv_r_hi_5, mwv_r_med_1, mwv_r_med_2, mwv_r_med_3, mwv_r_med_4, mwv_r_low_1,
    risk_low, risk_med, risk_high, trimf, riskPt, gridPt, symLoU, symStep, min_def, max_def]

/-- Aggregated Mamdani curve value at risk sample 141 for the query (110, 7). -/
lemma aggV141 : aggregated 110 7 141 = 182/597 := by
  norm_num [aggregated, act_hi, act_med, act_low, mwv_r_hi_1, mwv_r_hi_2, mwv_r_hi_3, mwv_r_hi_4, mwv_r_hi_5, mwv_r_med_1, mwv_r_med_2, mwv_r_med_3, mwv_r_med_4, mwv_r_low_1,
    risk_low, risk_med, risk_high, trimf, riskPt, gridPt, symLoU, symStep, min_def, max_def]

/-- Aggregated Mamdani curve value at risk sample 142 for the query (110, 7). -/
lemma aggV142 : aggregated 110 7 142 = 172/597 := by
  norm_num [aggregated, act_hi, act_med, act_low, mwv_r_hi_1, mwv_r_hi_2, mwv_r_hi_3, mwv_r_hi_4, mwv_r_hi_5, mwv_r_med_1, mwv_r_med_2, mwv_r_med_3, mwv_r_med_4, mwv_r_low_1,
    risk_low, risk_med, risk_high, trimf, riskPt, gridPt, symLoU, symStep, min_def, max_def]

/-- Aggregated Mamdani curve value at risk sample 143 for the query (110, 7). -/
lemma aggV143 : aggregated 110 7 143 = 59/199 := by
  norm_num [aggregated, act_hi, act_med, act_low, mwv_r_hi_1, mwv_r_hi_2, mwv_r_hi_3, mwv_r_hi_4, mwv_r_hi_5, mwv_r_med_1, mwv_r_med_2, mwv_r_med_3, mwv_r_med_4, mwv_r_low_1,
    risk_low, risk_med, risk_high, trimf, riskPt, gridPt, symLoU, symStep, min_def, max_def]

/-- Aggregated Mamdani curve value at risk sample 144 for the query (110, 7). -/
lemma aggV144 : aggregated 110 7 144 = 123/398 := by
  norm_num [aggregated, act_hi, act_med, act_low, mwv_r_hi_1, mwv_r_hi_2, mwv_r_hi_3, mwv_r_hi_4, mwv_r_hi_5, mwv_r_med_1, mwv_r_med_2, mwv_r_med_3, mwv_r_med_4, mwv_r_low_1,
    risk_low, risk_med, risk_high, trimf, riskPt, gridPt, symLoU, symStep, min_def, max_def]

/-- Aggregated Mamdani curve value at risk sample 145 for the query (110, 7). -/
lemma aggV145 : aggregated 110 7 145 = 64/199 := by
  norm_num [aggregated, act_hi, act_med, act_low, mwv_r_hi_1, mwv_r_hi_2, mwv_r_hi_3, mwv_r_hi_4, mwv_r_hi_5, mwv_r_med_1, mwv_r_med_2, mwv_r_med_3, mwv_r_med_4, mwv_r_low_1,
    risk_low, risk_med, risk_high, trimf, riskPt, gridPt, symLoU, symStep, min_def, max_def]

/-- Aggregated Mamdani curve value at risk sample 146 for the query (110, 7). -/
lemma aggV146 : aggregated 110 7 146 = 133/398 := by
  norm_num [aggregated, act_hi, act_med, act_low, mwv_r_hi_1, mwv_r_hi_2, mwv_r_hi_3, mwv_r_hi_4, mwv_r_hi_5, mwv_r_med_1, mwv_r_med_2, mwv_r_med_3, mwv_r_med_4, mwv_r_low_1,
    risk_low, risk_med, risk_high, trimf, riskPt, gridPt, symLoU, symStep, min_def, max_def]

/-- Aggregated Mamdani curve value at risk sample 147 for the query (110, 7). -/
lemma aggV147 : aggregated 110 7 147 = 69/199 := by
  norm_num [aggregated, act_hi, act_med, act_low, mwv_r_hi_1, mwv_r_hi_2, mwv_r_hi_3, mwv_r_hi_4, mwv_r_hi_5, mwv_r_med_1, mwv_r_med_2, mwv_r_med_3, mwv_r_med_4, mwv_r_low_1,
    risk_low, risk_med, risk_high, trimf, riskPt, gridPt, symLoU, symStep, min_def, max_def]

/-- Aggregated Mamdani curve value at risk sample 148 for the query (110, 7). -/
lemma aggV148 : aggregated 110 7 148 = 143/398 := by
  norm_num [aggregated, act_hi, act_med, act_low, mwv_r_hi_1, mwv_r_hi_2, mwv_r_hi_3, mwv_r_hi_4, mwv_r_hi_5, mwv_r_med_1, mwv_r_med_2, mwv_r_med_3, mwv_r_med_4, mwv_r_low_1,
    risk_low, risk_med, risk_high, trimf, riskPt, gridPt, symLoU, symStep, min_def, max_def]

/-- Aggregated Mamdani curve value at risk sample 149 for the query (110, 7). -/
lemma aggV149 : aggregated 110 7 149 = 74/199 := by
  norm_num [aggregated, act_hi, act_med, act_low, mwv_r_hi_1, mwv_r_hi_2, mwv_r_hi_3, mwv_r_hi_4, mwv_r_hi_5, mwv_r_med_1, mwv_r_med_2, mwv_r_med_3, mwv_r_med_4, mwv_r_low_1,
    risk_low, risk_med, risk_high, trimf, riskPt, gridPt, symLoU, symStep, min_def, max_def]

/-- Aggregated Mamdani curve value at risk sample 150 for the query (110, 7). -/
lemma aggV150 : aggregated 110 7 150 = 153/398 := by
  norm_num [aggregated, act_hi, act_med, act_low, mwv_r_hi_1, mwv_r_hi_2, mwv_r_hi_3, mwv_r_hi_4, mwv_r_hi_5, mwv_r_med_1, mwv_r_med_2, mwv_r_med_3, mwv_r_med_4, mwv_r_low_1,
    risk_low, risk_med, risk_high, trimf, riskPt, gridPt, symLoU, symStep, min_def, max_def]

/-- Aggregated Mamdani curve value at risk sample 151 for the query (110, 7). -/
lemma aggV151 : aggregated 110 7 151 = 79/199 := by
  norm_num [aggregated, act_hi, act_med, act_low, mwv_r_hi_1, mwv_r_hi_2, mwv_r_hi_3, mwv_r_hi_4, mwv_r_hi_5, mwv_r_med_1, mwv_r_med_2, mwv_r_med_3, mwv_r_med_4, mwv_r_low_1,
    risk_low, risk_med, risk_high, trimf, riskPt, gridPt, symLoU, symStep, min_def, max_def]

/-- Aggregated Mamdani curve value at risk sample 152 for the query (110, 7). -/
lemma aggV152 : aggregated 110 7 152 = 163/398 := by
  norm_num [aggregated, act_hi, act_med, act_low, mwv_r_hi_1, mwv_r_hi_2, mwv_r_hi_3, mwv_r_hi_4, mwv_r_hi_5, mwv_r_med_1, mwv_r_med_2, mwv_r_med_3, mwv_r_med_4, mwv_r_low_1,
    risk_low, risk_med, risk_high, trimf, riskPt, gridPt, symLoU, symStep, min_def, max_def]

/-- Aggregated Mamdani curve value at risk sample 153 for the query (110, 7). -/
lemma aggV153 : aggregated 110 7 153 = 84/199 := by
  norm_num [aggregated, act_hi, act_med, act_low, mwv_r_hi_1, mwv_r_hi_2, mwv_r_hi_3, mwv_r_hi_4, mwv_r_hi_5, mwv_r_med_1, mwv_r_med_2, mwv_r_med_3, mwv_r_med_4, mwv_r_low_1,
    risk_low, risk_med, risk_high, trimf, riskPt, gridPt, symLoU, symStep, min_def, max_def]

/-- Aggregated Mamdani curve value at risk sample 154 for the query (110, 7). -/
lemma aggV154 : aggregated 110 7 154 = 173/398 := by
  norm_num [aggregated, act_hi, act_med, act_low, mwv_r_hi_1, mwv_r_hi_2, mwv_r_hi_3, mwv_r_hi_4, mwv_r_hi_5, mwv_r_med_1, mwv_r_med_2, mwv_r_med_3, mwv_r_med_4, mwv_r_low_1,
    risk_low, risk_med, risk_high, trimf, riskPt, gridPt, symLoU, symStep, min_def, max_def]

/-- Aggregated Mamdani curve value at risk sample 155 for the query (110, 7). -/
lemma aggV155 : aggregated 110 7 155 = 89/199 := by
  norm_num [aggregated, act_hi, act_med, act_low, mwv_r_hi_1, mwv_r_hi_2, mwv_r_hi_3, mwv_r_hi_4, mwv_r_hi_5, mwv_r_med_1, mwv_r_med_2, mwv_r_med_3, mwv_r_med_4, mwv_r_low_1,
    risk_low, risk_med, risk_high, trimf, riskPt, gridPt, symLoU, symStep, min_def, max_def]

/-- Aggregated Mamdani curve value at risk sample 156 for the query (110, 7). -/
lemma aggV156 : aggregated 110 7 156 = 183/398 := by
  norm_num [aggregated, act_hi, act_med, act_low, mwv_r_hi_1, mwv_r_hi_2, mwv_r_hi_3, mwv_r_hi_4, mwv_r_hi_5, mwv_r_med_1, mwv_r_med_2, mwv_r_med_3, mwv_r_med_4, mwv_r_low_1,
    risk_low, risk_med, risk_high, trimf, riskPt, gridPt, symLoU, symStep, min_def, max_def]

/-- Aggregated Mamdani curve value at risk sample 157 for the query (110, 7). -/
lemma aggV157 : aggregated 110 7 157 = 94/199 := by
  norm_num [aggregated, act_hi, act_med, act_low, mwv_r_hi_1, mwv_r_hi_2, mwv_r_hi_3, mwv_r_hi_4, mwv_r_hi_5, mwv_r_med_1, mwv_r_med_2, mwv_r_med_3, mwv_r_med_4, mwv_r_low_1,
    risk_low, risk_med, risk_high, trimf, riskPt, gridPt, symLoU, symStep, min_def, max_def]

/-- Aggregated Mamdani curve value at risk sample 158 for the query (110, 7). -/
lemma aggV158 : aggregated 110 7 158 = 193/398 := by
  norm_num [aggregated, act_hi, act_med, act_low, mwv_r_hi_1, mwv_r_hi_2, mwv_r_hi_3, mwv_r_hi_4, mwv_r_hi_5, mwv_r_med_1, mwv_r_med_2, mwv_r_med_3, mwv_r_med_4, mwv_r_low_1,
    risk_low, risk_med, risk_high, trimf, riskPt, gridPt, symLoU, symStep, min_def, max_def]

/-- Aggregated Mamdani curve value at risk sample 159 for the query (110, 7). -/
lemma aggV159 : aggregated 110 7 159 = 99/199 := by
  norm_num [aggregated, act_hi, act_med, act_low, mwv_r_hi_1, mwv_r_hi_2, mwv_r_hi_3, mwv_r_hi_4, mwv_r_hi_5, mwv_r_med_1, mwv_r_med_2, mwv_r_med_3, mwv_r_med_4, mwv_r_low_1,
    risk_low, risk_med, risk_high, trimf, riskPt, gridPt, symLoU, symStep, min_def, max_def]

/-- Aggregated Mamdani curve value at risk sample 160 for the query (110, 7). -/
lemma aggV160 : aggregated 110 7 160 = 197963/396010 := by
  norm_num [aggregated, act_hi, act_med, act_low, mwv_r_hi_1, mwv_r_hi_2, mwv_r_hi_3, mwv_r_hi_4, mwv_r_hi_5, mwv_r_med_1, mwv_r_med_2, mwv_r_med_3, mwv_r_med_4, mwv_r_low_1,
    risk_low, risk_med, risk_high, trimf, riskPt, gridPt, symLoU, symStep, min_def, max_def]

/-- Aggregated Mamdani curve value at risk sample 161 for the query (110, 7). -/
lemma aggV161 : aggregated 110 7 161 = 197963/396010 := by
  norm_num [aggregated, act_hi, act_med, act_low, mwv_r_hi_1, mwv_r_hi_2, mwv_r_hi_3, mwv_r_hi_4, mwv_r_hi_5, mwv_r_med_1, mwv_r_med_2, mwv_r_med_3, mwv_r_med_4, mwv_r_low_1,
    risk_low, risk_med, risk_high, trimf, riskPt, gridPt, symLoU, symStep, min_def, max_def]

/-- Aggregated Mamdani curve value at risk sample 162 for the query (110, 7). -/
lemma aggV162 : aggregated 110 7 162 = 197963/396010 := by
  norm_num [aggregated, act_hi, act_med, act_low, mwv_r_hi_1, mwv_r_hi_2, mwv_r_hi_3, mwv_r_hi_4, mwv_r_hi_5, mwv_r_med_1, mwv_r_med_2, mwv_r_med_3, mwv_r_med_4, mwv_r_low_1,
    risk_low, risk_med, risk_high, trimf, riskPt, gridPt, symLoU, symStep, min_def, max_def]

/-- Aggregated Mamdani curve value at risk sample 163 for the query (110, 7). -/
lemma aggV163 : aggregated 110 7 163 = 197963/396010 := by
  norm_num [aggregated, act_hi, act_med, act_low, mwv_r_hi_1, mwv_r_hi_2, mwv_r_hi_3, mwv_r_hi_4, mwv_r_hi_5, mwv_r_med_1, mwv_r_med_2, mwv_r_med_3, mwv_r_med_4, mwv_r_low_1,
    risk_low, risk_med, risk_high, trimf, riskPt, gridPt, symLoU, symStep, min_def, max_def]

/-- Aggregated Mamdani curve value at risk sample 164 for the query (110, 7). -/
lemma aggV164 : aggregated 110 7 164 = 197963/396010 := by
  norm_num [aggregated, act_hi, act_med, act_low, mwv_r_hi_1, mwv_r_hi_2, mwv_r_hi_3, mwv_r_hi_4, mwv_r_hi_5, mwv_r_med_1, mwv_r_med_2, mwv_r_med_3, mwv_r_med_4, mwv_r_low_1,
    risk_low, risk_med, risk_high, trimf, riskPt, gridPt, symLoU, symStep, min_def, max_def]

/-- Aggregated Mamdani curve value at risk sample 165 for the query (110, 7). -/
lemma aggV165 : aggregated 110 7 165 = 197963/396010 := by
  norm_num [aggregated, act_hi, act_med, act_low, mwv_r_hi_1, mwv_r_hi_2, mwv_r_hi_3, mwv_r_hi_4, mwv_r_hi_5, mwv_r_med_1, mwv_r_med_2, mwv_r_med_3, mwv_r_med_4, mwv_r_low_1,
    risk_low, risk_med, risk_high, trimf, riskPt, gridPt, symLoU, symStep, min_def, max_def]

/-- Aggregated Mamdani curve value at risk sample 166 for the query (110, 7). -/
lemma aggV166 : aggregated 110 7 166 = 197963/396010 := by
  norm_num [aggregated, act_hi, act_med, act_low, mwv_r_hi_1, mwv_r_hi_2, mwv_r_hi_3, mwv_r_hi_4, mwv_r_hi_5, mwv_r_med_1, mwv_r_med_2, mwv_r_med_3, mwv_r_med_4, mwv_r_low_1,
    risk_low, risk_med, risk_high, trimf, riskPt, gridPt, symLoU, symStep, min_def, max_def]

/-- Aggregated Mamdani curve value at risk sample 167 for the query (110, 7). -/
lemma aggV167 : aggregated 110 7 167 = 197963/396010 := by
  norm_num [aggregated, act_hi, act_med, act_low, mwv_r_hi_1, mwv_r_hi_2, mwv_r_hi_3, mwv_r_hi_4, mwv_r_hi_5, mwv_r_med_1, mwv_r_med_2, mwv_r_med_3, mwv_r_med_4, mwv_r_low_1,
    risk_low, risk_med, risk_high, trimf, riskPt, gridPt, symLoU, symStep, min_def, max_def]

/-- Aggregated Mamdani curve value at risk sample 168 for the query (110, 7). -/
lemma aggV168 : aggregated 110 7 168 = 197963/396010 := by
  norm_num [aggregated, act_hi, act_med, act_low, mwv_r_hi_1, mwv_r_hi_2, mwv_r_hi_3, mwv_r_hi_4, mwv_r_hi_5, mwv_r_med_1, mwv_r_med_2, mwv_r_med_3, mwv_r_med_4, mwv_r_low_1,
    risk_low, risk_med, risk_high, trimf, riskPt, gridPt, symLoU, symStep, min_def, max_def]

/-- Aggregated Mamdani curve value at risk sample 169 for the query (110, 7). -/
lemma aggV169 : aggregated 110 7 169 = 197963/396010 := by
  norm_num [aggregated, act_hi, act_med, act_low, mwv_r_hi_1, mwv_r_hi_2, mwv_r_hi_3, mwv_r_hi_4, mwv_r_hi_5, mwv_r_med_1, mwv_r_med_2, mwv_r_med_3, mwv_r_med_4, mwv_r_low_1,
    risk_low, risk_med, risk_high, trimf, riskPt, gridPt, symLoU, symStep, min_def, max_def]

/-- Aggregated Mamdani curve value at risk sample 170 for the query (110, 7). -/
lemma aggV170 : aggregated 110 7 170 = 197963/396010 := by
  norm_num [aggregated, act_hi, act_med, act_low, mwv_r_hi_1, mwv_r_hi_2, mwv_r_hi_3, mwv_r_hi_4, mwv_r_hi_5, mwv_r_med_1, mwv_r_med_2, mwv_r_med_3, mwv_r_med_4, mwv_r_low_1,
    risk_low, risk_med, risk_high, trimf, riskPt, gridPt, symLoU, symStep, min_def, max_def]

/-- Aggregated Mamdani curve value at risk sample 171 for the query (110, 7). -/
lemma aggV171 : aggregated 110 7 171 = 197963/396010 := by
  norm_num [aggregated, act_hi, act_med, act_low, mwv_r_hi_1, mwv_r_hi_2, mwv_r_hi_3, mwv_r_hi_4, mwv_r_hi_5, mwv_r_med_1, mwv_r_med_2, mwv_r_med_3, mwv_r_med_4, mwv_r_low_1,
    risk_low, risk_med, risk_high, trimf, riskPt, gridPt, symLoU, symStep, min_def, max_def]

/-- Aggregated Mamdani curve value at risk sample 172 for the query (110, 7). -/
lemma aggV172 : aggregated 110 7 172 = 197963/396010 := by
  norm_num [aggregated, act_hi, act_med, act_low, mwv_r_hi_1, mwv_r_hi_2, mwv_r_hi_3, mwv_r_hi_4, mwv_r_hi_5, mwv_r_med_1, mwv_r_med_2, mwv_r_med_3, mwv_r_med_4, mwv_r_low_1,
    risk_low, risk_med, risk_high, trimf, riskPt, gridPt, symLoU, symStep, min_def, max_def]

/-- Aggregated Mamdani curve value at risk sample 173 for the query (110, 7). -/
lemma aggV173 : aggregated 110 7 173 = 197963/396010 := by
  norm_num [aggregated, act_hi, act_med, act_low, mwv_r_hi_1, mwv_r_hi_2, mwv_r_hi_3, mwv_r_hi_4, mwv_r_hi_5, mwv_r_med_1, mwv_r_med_2, mwv_r_med_3, mwv_r_med_4, mwv_r_low_1,
    risk_low, risk_med, risk_high, trimf, riskPt, gridPt, symLoU, symStep, min_def, max_def]

/-- Aggregated Mamdani curve value at risk sample 174 for the query (110, 7). -/
lemma aggV174 : aggregated 110 7 174 = 197963/396010 := by
  norm_num [aggregated, act_hi, act_med, act_low, mwv_r_hi_1, mwv_r_hi_2, mwv_r_hi_3, mwv_r_hi_4, mwv_r_hi_5, mwv_r_med_1, mwv_r_med_2, mwv_r_med_3, mwv_r_med_4, mwv_r_low_1,
    risk_low, risk_med, risk_high, trimf, riskPt, gridPt, symLoU, symStep, min_def, max_def]

/-- Aggregated Mamdani curve value at risk sample 175 for the query (110, 7). -/
lemma aggV175 : aggregated 110 7 175 = 197963/396010 := by
  norm_num [aggregated, act_hi, act_med, act_low, mwv_r_hi_1, mwv_r_hi_2, mwv_r_hi_3, mwv_r_hi_4, mwv_r_hi_5, mwv_r_med_1, mwv_r_med_2, mwv_r_med_3, mwv_r_med_4, mwv_r_low_1,
    risk_low, risk_med, risk_high, trimf, riskPt, gridPt, symLoU, symStep, min_def, max_def]

/-- Aggregated Mamdani curve value at risk sample 176 for the query (110, 7). -/
lemma aggV176 : aggregated 110 7 176 = 197963/396010 := by
  norm_num [aggregated, act_hi, act_med, act_low, mwv_r_hi_1, mwv_r_hi_2, mwv_r_hi_3, mwv_r_hi_4, mwv_r_hi_5, mwv_r_med_1, mwv_r_med_2, mwv_r_med_3, mwv_r_med_4, mwv_r_low_1,
    risk_low, risk_med, risk_high, trimf, riskPt, gridPt, symLoU, symStep, min_def, max_def]

/-- Aggregated Mamdani curve value at risk sample 177 for the query (110, 7). -/
lemma aggV177 : aggregated 110 7 177 = 197963/396010 := by
  norm_num [aggregated, act_hi, act_med, act_low, mwv_r_hi_1, mwv_r_hi_2, mwv_r_hi_3, mwv_r_hi_4, mwv_r_hi_5, mwv_r_med_1, mwv_r_med_2, mwv_r_med_3, mwv_r_med_4, mwv_r_low_1,
    risk_low, risk_med, risk_high, trimf, riskPt, gridPt, symLoU, symStep, min_def, max_def]

/-- Aggregated Mamdani curve value at risk sample 178 for the query (110, 7). -/
lemma aggV178 : aggregated 110 7 178 = 197963/396010 := by
  norm_num [aggregated, act_hi, act_med, act_low, mwv_r_hi_1, mwv_r_hi_2, mwv_r_hi_3, mwv_r_hi_4, mwv_r_hi_5, mwv_r_med_1, mwv_r_med_2, mwv_r_med_3, mwv_r_med_4, mwv_r_low_1,
    risk_low, risk_med, risk_high, trimf, riskPt, gridPt, symLoU, symStep, min_def, max_def]

/-- Aggregated Mamdani curve value at risk sample 179 for the query (110, 7). -/
lemma aggV179 : aggregated 110 7 179 = 197963/396010 := by
  norm_num [aggregated, act_hi, act_med, act_low, mwv_r_hi_1, mwv_r_hi_2, mwv_r_hi_3, mwv_r_hi_4, mwv_r_hi_5, mwv_r_med_1, mwv_r_med_2, mwv_r_med_3, mwv_r_med_4, mwv_r_low_1,
    risk_low, risk_med, risk_high, trimf, riskPt, gridPt, symLoU, symStep, min_def, max_def]

/-- Aggregated Mamdani curve value at risk sample 180 for the query (110, 7). -/
lemma aggV180 : aggregated 110 7 180 = 197963/396010 := by
  norm_num [aggregated, act_hi, act_med, act_low, mwv_r_hi_1, mwv_r_hi_2, mwv_r_hi_3, mwv_r_hi_4, mwv_r_hi_5, mwv_r_med_1, mwv_r_med_2, mwv_r_med_3, mwv_r_med_4, mwv_r_low_1,
    risk_low, risk_med, risk_high, trimf, riskPt, gridPt, symLoU, symStep, min_def, max_def]

/-- Aggregated Mamdani curve value at risk sample 181 for the query (110, 7). -/
lemma aggV181 : aggregated 110 7 181 = 197963/396010 := by
  norm_num [aggregated, act_hi, act_med, act_low, mwv_r_hi_1, mwv_r_hi_2, mwv_r_hi_3, mwv_r_hi_4, mwv_r_hi_5, mwv_r_med_1, mwv_r_med_2, mwv_r_med_3, mwv_r_med_4, mwv_r_low_1,
    risk_low, risk_med, risk_high, trimf, riskPt, gridPt, symLoU, symStep, min_def, max_def]

/-- Aggregated Mamdani curve value at risk sample 182 for the query (110, 7). -/
lemma aggV182 : aggregated 110 7 182 = 197963/396010 := by
  norm_num [aggregated, act_hi, act_med, act_low, mwv_r_hi_1, mwv_r_hi_2, mwv_r_hi_3, mwv_r_hi_4, mwv_r_hi_5, mwv_r_med_1, mwv_r_med_2, mwv_r_med_3, mwv_r_med_4, mwv_r_low_1,
    risk_low, risk_med, risk_high, trimf, riskPt, gridPt, symLoU, symStep, min_def, max_def]

/-- Aggregated Mamdani curve value at risk sample 183 for the query (110, 7). -/
lemma aggV183 : aggregated 110 7 183 = 197963/396010 := by
  norm_num [aggregated, act_hi, act_med, act_low, mwv_r_hi_1, mwv_r_hi_2, mwv_r_hi_3, mwv_r_hi_4, mwv_r_hi_5, mwv_r_med_1, mwv_r_med_2, mwv_r_med_3, mwv_r_med_4, mwv_r_low_1,
    risk_low, risk_med, risk_high, trimf, riskPt, gridPt, symLoU, symStep, min_def, max_def]

/-- Aggregated Mamdani curve value at risk sample 184 for the query (110, 7). -/
lemma aggV184 : aggregated 110 7 184 = 197963/396010 := by
  norm_num [aggregated, act_hi, act_med, act_low, mwv_r_hi_1, mwv_r_hi_2, mwv_r_hi_3, mwv_r_hi_4, mwv_r_hi_5, mwv_r_med_1, mwv_r_med_2, mwv_r_med_3, mwv_r_med_4, mwv_r_low_1,
    risk_low, risk_med, risk_high, trimf, riskPt, gridPt, symLoU, symStep, min_def, max_def]

/-- Aggregated Mamdani curve value at risk sample 185 for the query (110, 7). -/
lemma aggV185 : aggregated 110 7 185 = 197963/396010 := by
  norm_num [aggregated, act_hi, act_med, act_low, mwv_r_hi_1, mwv_r_hi_2, mwv_r_hi_3, mwv_r_hi_4, mwv_r_hi_5, mwv_r_med_1, mwv_r_med_2, mwv_r_med_3, mwv_r_med_4, mwv_r_low_1,
    risk_low, risk_med, risk_high, trimf, riskPt, gridPt, symLoU, symStep, min_def, max_def]

/-- Aggregated Mamdani curve value at risk sample 186 for the query (110, 7). -/
lemma aggV186 : aggregated 110 7 186 = 197963/396010 := by
  norm_num [aggregated, act_hi, act_med, act_low, mwv_r_hi_1, mwv_r_hi_2, mwv_r_hi_3, mwv_r_hi_4, mwv_r_hi_5, mwv_r_med_1, mwv_r_med_2, mwv_r_med_3, mwv_r_med_4, mwv_r_low_1,
    risk_low, risk_med, risk_high, trimf, riskPt, gridPt, symLoU, symStep, min_def, max_def]

/-- Aggregated Mamdani curve value at risk sample 187 for the query (110, 7). -/
lemma aggV187 : aggregated 110 7 187 = 197963/396010 := by
  norm_num [aggregated, act_hi, act_med, act_low, mwv_r_hi_1, mwv_r_hi_2, mwv_r_hi_3, mwv_r_hi_4, mwv_r_hi_5, mwv_r_med_1, mwv_r_med_2, mwv_r_med_3, mwv_r_med_4, mwv_r_low_1,
    risk_low, risk_med, risk_high, trimf, riskPt, gridPt, symLoU, symStep, min_def, max_def]

/-- Aggregated Mamdani curve value at risk sample 188 for the query (110, 7). -/
lemma aggV188 : aggregated 110 7 188 = 197963/396010 := by
  norm_num [aggregated, act_hi, act_med, act_low, mwv_r_hi_1, mwv_r_hi_2, mwv_r_hi_3, mwv_r_hi_4, mwv_r_hi_5, mwv_r_med_1, mwv_r_med_2, mwv_r_med_3, mwv_r_med_4, mwv_r_low_1,
    risk_low, risk_med, risk_high, trimf, riskPt, gridPt, symLoU, symStep, min_def, max_def]

/-- Aggregated Mamdani curve value at risk sample 189 for the query (110, 7). -/
lemma aggV189 : aggregated 110 7 189 = 197963/396010 := by
  norm_num [aggregated, act_hi, act_med, act_low, mwv_r_hi_1, mwv_r_hi_2, mwv_r_hi_3, mwv_r_hi_4, mwv_r_hi_5, mwv_r_med_1, mwv_r_med_2, mwv_r_med_3, mwv_r_med_4, mwv_r_low_1,
    risk_low, risk_med, risk_high, trimf, riskPt, gridPt, symLoU, symStep, min_def, max_def]

/-- Aggregated Mamdani curve value at risk sample 190 for the query (110, 7). -/
lemma aggV190 : aggregated 110 7 190 = 197963/396010 := by
  norm_num [aggregated, act_hi, act_med, act_low, mwv_r_hi_1, mwv_r_hi_2, mwv_r_hi_3, mwv_r_hi_4, mwv_r_hi_5, mwv_r_med_1, mwv_r_med_2, mwv_r_med_3, mwv_r_med_4, mwv_r_low_1,
    risk_low, risk_med, risk_high, trimf, riskPt, gridPt, symLoU, symStep, min_def, max_def]

/-- Aggregated Mamdani curve value at risk sample 191 for the query (110, 7). -/
lemma aggV191 : aggregated 110 7 191 = 197963/396010 := by
  norm_num [aggregated, act_hi, act_med, act_low, mwv_r_hi_1, mwv_r_hi_2, mwv_r_hi_3, mwv_r_hi_4, mwv_r_hi_5, mwv_r_med_1, mwv_r_med_2, mwv_r_med_3, mwv_r_med_4, mwv_r_low_1,
    risk_low, risk_med, risk_high, trimf, riskPt, gridPt, symLoU, symStep, min_def, max_def]

/-- Aggregated Mamdani curve value at risk sample 192 for the query (110, 7). -/
lemma aggV192 : aggregated 110 7 192 = 197963/396010 := by
  norm_num [aggregated, act_hi, act_med, act_low, mwv_r_hi_1, mwv_r_hi_2, mwv_r_hi_3, mwv_r_hi_4, mwv_r_hi_5, mwv_r_med_1, mwv_r_med_2, mwv_r_med_3, mwv_r_med_4, mwv_r_low_1,
    risk_low, risk_med, risk_high, trimf, riskPt, gridPt, symLoU, symStep, min_def, max_def]

/-- Aggregated Mamdani curve value at risk sample 193 for the query (110, 7). -/
lemma aggV193 : aggregated 110 7 193 = 197963/396010 := by
  norm_num [aggregated, act_hi, act_med, act_low, mwv_r_hi_1, mwv_r_hi_2, mwv_r_hi_3, mwv_r_hi_4, mwv_r_hi_5, mwv_r_med_1, mwv_r_med_2, mwv_r_med_3, mwv_r_med_4, mwv_r_low_1,
    risk_low, risk_med, risk_high, trimf, riskPt, gridPt, symLoU, symStep, min_def, max_def]

/-- Aggregated Mamdani curve value at risk sample 194 for the query (110, 7). -/
lemma aggV194 : aggregated 110 7 194 = 197963/396010 := by
  norm_num [aggregated, act_hi, act_med, act_low, mwv_r_hi_1, mwv_r_hi_2, mwv_r_hi_3, mwv_r_hi_4, mwv_r_hi_5, mwv_r_med_1, mwv_r_med_2, mwv_r_med_3, mwv_r_med_4, mwv_r_low_1,
    risk_low, risk_med, risk_high, trimf, riskPt, gridPt, symLoU, symStep, min_def, max_def]

/-- Aggregated Mamdani curve value at risk sample 195 for the query (110, 7). -/
lemma aggV195 : aggregated 110 7 195 = 197963/396010 := by
  norm_num [aggregated, act_hi, act_med, act_low, mwv_r_hi_1, mwv_r_hi_2, mwv_r_hi_3, mwv_r_hi_4, mwv_r_hi_5, mwv_r_med_1, mwv_r_med_2, mwv_r_med_3, mwv_r_med_4, mwv_r_low_1,
    risk_low, risk_med, risk_high, trimf, riskPt, gridPt, symLoU, symStep, min_def, max_def]

/-- Aggregated Mamdani curve value at risk sample 196 for the query (110, 7). -/
lemma aggV196 : aggregated 110 7 196 = 197963/396010 := by
  norm_num [aggregated, act_hi, act_med, act_low, mwv_r_hi_1, mwv_r_hi_2, mwv_r_hi_3, mwv_r_hi_4, mwv_r_hi_5, mwv_r_med_1, mwv_r_med_2, mwv_r_med_3, mwv_r_med_4, mwv_r_low_1,
    risk_low, risk_med, risk_high, trimf, riskPt, gridPt, symLoU, symStep, min_def, max_def]

/-- Aggregated Mamdani curve value at risk sample 197 for the query (110, 7). -/
lemma aggV197 : aggregated 110 7 197 = 197963/396010 := by
  norm_num [aggregated, act_hi, act_med, act_low, mwv_r_hi_1, mwv_r_hi_2, mwv_r_hi_3, mwv_r_hi_4, mwv_r_hi_5, mwv_r_med_1, mwv_r_med_2, mwv_r_med_3, mwv_r_med_4, mwv_r_low_1,
    risk_low, risk_med, risk_high, trimf, riskPt, gridPt, symLoU, symStep, min_def, max_def]

/-- Aggregated Mamdani curve value at risk sample 198 for the query (110, 7). -/
lemma aggV198 : aggregated 110 7 198 = 197963/396010 := by
  norm_num [aggregated, act_hi, act_med, act_low, mwv_r_hi_1, mwv_r_hi_2, mwv_r_hi_3, mwv_r_hi_4, mwv_r_hi_5, mwv_r_med_1, mwv_r_med_2, mwv_r_med_3, mwv_r_med_4, mwv_r_low_1,
    risk_low, risk_med, risk_high, trimf, riskPt, gridPt, symLoU, symStep, min_def, max_def]

/-- Aggregated Mamdani curve value at risk sample 199 for the query (110, 7). -/
lemma aggV199 : aggregated 110 7 199 = 197963/396010 := by
  norm_num [aggregated, act_hi, act_med, act_low, mwv_r_hi_1, mwv_r_hi_2, mwv_r_hi_3, mwv_r_hi_4, mwv_r_hi_5, mwv_r_med_1, mwv_r_med_2, mwv_r_med_3, mwv_r_med_4, mwv_r_low_1,
    risk_low, risk_med, risk_high, trimf, riskPt, gridPt, symLoU, symStep, min_def, max_def]

set_option maxRecDepth 8000 in
/-- Numerator of the centroid at the query (110, 7). -/
lemma aggNum :
    sumRange 200 (fun i => riskPt i * aggregated 110 7 i) = 4852465254946030/11291393172591 := by
  norm_num [sumRange, aggV0, aggV1, aggV2, aggV3, aggV4, aggV5, aggV6, aggV7, aggV8, aggV9, aggV10, aggV11, aggV12, aggV13, aggV14, aggV15, aggV16, aggV17, aggV18, aggV19, aggV20, aggV21, aggV22, aggV23, aggV24, aggV25, aggV26, aggV27, aggV28, aggV29, aggV30, aggV31, aggV32, aggV33, aggV34, aggV35, aggV36, aggV37, aggV38, aggV39, aggV40, aggV41, aggV42, aggV43, aggV44, aggV45, aggV46, aggV47, aggV48, aggV49, aggV50, aggV51, aggV52, aggV53, aggV54, aggV55, aggV56, aggV57, aggV58, aggV59, aggV60, aggV61, aggV62, aggV63, aggV64, aggV65, aggV66, aggV67, aggV68, aggV69, aggV70, aggV71, aggV72, aggV73, aggV74, aggV75, aggV76, aggV77, aggV78, aggV79, aggV80, aggV81, aggV82, aggV83, aggV84, aggV85, aggV86, aggV87, aggV88, aggV89, aggV90, aggV91, aggV92, aggV93, aggV94, aggV95, aggV96, aggV97, aggV98, aggV99, aggV100, aggV101, aggV102, aggV103, aggV104, aggV105, aggV106, aggV107, aggV108, aggV109, aggV110, aggV111, aggV112, aggV113, aggV114, aggV115, aggV116, aggV117, aggV118, aggV119, aggV120, aggV121, aggV122, aggV123, aggV124, aggV125, aggV126, aggV127, aggV128, aggV129, aggV130, aggV131, aggV132, aggV133, aggV134, aggV135, aggV136, aggV137, aggV138, aggV139, aggV140, aggV141, aggV142, aggV143, aggV144, aggV145, aggV146, aggV147, aggV148, aggV149, aggV150, aggV151, aggV152, aggV153, aggV154, aggV155, aggV156, aggV157, aggV158, aggV159, aggV160, aggV161, aggV162, aggV163, aggV164, aggV165, aggV166, aggV167, aggV168, aggV169, aggV170, aggV171, aggV172, aggV173, aggV174, aggV175, aggV176, aggV177, aggV178, aggV179, aggV180, aggV181, aggV182, aggV183, aggV184, aggV185, aggV186, aggV187, aggV188, aggV189, aggV190, aggV191, aggV192, aggV193, aggV194, aggV195, aggV196, aggV197, aggV198, aggV199, riskPt, gridPt, symLoU, symStep]

set_option maxRecDepth 8000 in
/-- Denominator of the centroid at the query (110, 7). -/
lemma aggDen : sumRange 200 (aggregated 110 7) = 3828186255419/56740669209 := by
  norm_num [sumRange, aggV0, aggV1, aggV2, aggV3, aggV4, aggV5, aggV6, aggV7, aggV8, aggV9, aggV10, aggV11, aggV12, aggV13, aggV14, aggV15, aggV16, aggV17, aggV18, aggV19, aggV20, aggV21, aggV22, aggV23, aggV24, aggV25, aggV26, aggV27, aggV28, aggV29, aggV30, aggV31, aggV32, aggV33, aggV34, aggV35, aggV36, aggV37, aggV38, aggV39, aggV40, aggV41, aggV42, aggV43, aggV44, aggV45, aggV46, aggV47, aggV48, aggV49, aggV50, aggV51, aggV52, aggV53, aggV54, aggV55, aggV56, aggV57, aggV58, aggV59, aggV60, aggV61, aggV62, aggV63, aggV64, aggV65, aggV66, aggV67, aggV68, aggV69, aggV70, aggV71, aggV72, aggV73, aggV74, aggV75, aggV76, aggV77, aggV78, aggV79, aggV80, aggV81, aggV82, aggV83, aggV84, aggV85, aggV86, aggV87, aggV88, aggV89, aggV90, aggV91, aggV92, aggV93, aggV94, aggV95, aggV96, aggV97, aggV98, aggV99, aggV100, aggV101, aggV102, aggV103, aggV104, aggV105, aggV106, aggV107, aggV108, aggV109, aggV110, aggV111, aggV112, aggV113, aggV114, aggV115, aggV116, aggV117, aggV118, aggV119, aggV120, aggV121, aggV122, aggV123, aggV124, aggV125, aggV126, aggV127, aggV128, aggV129, aggV130, aggV131, aggV132, aggV133, aggV134, aggV135, aggV136, aggV137, aggV138, aggV139, aggV140, aggV141, aggV142, aggV143, aggV144, aggV145, aggV146, aggV147, aggV148, aggV149, aggV150, aggV151, aggV152, aggV153, aggV154, aggV155, aggV156, aggV157, aggV158, aggV159, aggV160, aggV161, aggV162, aggV163, aggV164, aggV165, aggV166, aggV167, aggV168, aggV169, aggV170, aggV171, aggV172, aggV173, aggV174, aggV175, aggV176, aggV177, aggV178, aggV179, aggV180, aggV181, aggV182, aggV183, aggV184, aggV185, aggV186, aggV187, aggV188, aggV189, aggV190, aggV191, aggV192, aggV193, aggV194, aggV195, aggV196, aggV197, aggV198, aggV199]

/-- Exact Mamdani output at the query (110, 7). -/
lemma crisp_risk_110_7 : crisp_risk 110 7 = 4852465254946030/761809064828381 := by
  rw [crisp_risk, centroid, symCount, aggNum, aggDen]
  norm_num

/-- Exact zero-order Sugeno output at the query (110, 7) with the default
operator and constant table. -/
lemma sugeno0_110_7 : sugeno_infer_default 110 7 = 2152377/318446 := by
  norm_num [sugeno_infer_default, sugeno_infer, sugeno_w, sugeno_z, SUGENO_Z, AND,
    gv_hr_low, gv_hr_normal, gv_hr_high, gv_sym_low, gv_sym_med, gv_sym_high,
    clampQ, min_def, max_def, List.zipWith, List.sum_cons, List.sum_nil]

/-- Exact first-order Sugeno output at the query (110, 7) with the default
operator and coefficient table. -/
lemma sugeno1_110_7 :
    sugeno1_infer AndKind.prod DEFAULT_TSK1_COEFFS 110 7 = 144381237/19902875 := by
  norm_num [sugeno1_infer, sugeno1_w, DEFAULT_TSK1_COEFFS, AND, HR_LO_eq, HR_HI_eq,
    gv_hr_low, gv_hr_normal, gv_hr_high, gv_sym_low, gv_sym_med, gv_sym_high,
    clampQ, min_def, max_def, List.zipWith, List.map, List.sum_cons, List.sum_nil]

/-- Sums of pointwise equal functions agree. -/
lemma sumRange_congr (n : ℕ) (f g : ℕ → ℚ) (hfg : ∀ i, f i = g i) :
    sumRange n f = sumRange n g := by
  induction n with
  | zero => rfl
  | succ n ih =>
    show sumRange n f + f n = sumRange n g + g n
    rw [ih, hfg n]

/-- Claim C2: in all three engines the baseline Medium rule's weight is
exactly 0.5 * max(mu_HR-Low, mu_HR-High): it is not a conjunction of
antecedents, does not depend on the symptom input, and is identical for
either AND operator (the right-hand side mentions neither s nor op). -/
theorem baseline_rule_exact (op : AndKind) (h s : ℚ) :
    (sugeno_w op h s).getD 8 0 = 1/2 * max (gradeHr hr_low h) (gradeHr hr_high h) ∧
    (sugeno1_w op h s).getD 8 0 = 1/2 * max (gradeHr hr_low h) (gradeHr hr_high h) ∧
    (mamdani_w h s).getD 8 0 = 1/2 * max (gradeHr hr_low h) (gradeHr hr_high h) := by
  refine ⟨?_, ?_, ?_⟩ <;>
    simp [sugeno_w, sugeno1_w, mamdani_w, r_med_4]

/-- Claim C3: for every query and z-constant table the Sugeno-0 engine
returns the weighted average sum(w_i z_i)/sum(w_i) clamped to [0, 10],
with rule weights computed by the selected AND operator, output exactly 0
below the 1e-12 weight-sum threshold, and the default call uses the
product t-norm. -/
theorem sugeno0_output_form (op : AndKind) (zv : ZVals) (h s : ℚ) :
    sugeno_infer op zv h s
      = weightedAverageClamped (sugeno_w op h s) (sugeno_z zv) ∧
    sugeno_infer_default h s = sugeno_infer AndKind.prod SUGENO_Z h s := by
  constructor
  · by_cases hd : ((10:ℚ)^12)⁻¹ < (sugeno_w op h s).sum
    · simp [sugeno_infer, weightedAverageClamped, hd]
    · simp [sugeno_infer, weightedAverageClamped, hd, clampQ]
  · rfl

/-- Claim C4: for every query the Sugeno-1 engine evaluates each rule's
consequent as a0 + a1*hrNorm + a2*symNorm with
hrNorm = clamp((h - HR_LO)/(HR_HI - HR_LO), 0, 1) and
symNorm = clamp(s/10, 0, 1), and combines weights and consequents by the
same clamped weighted average, with the same degenerate-denominator
treatment, as the Sugeno-0 engine. -/
theorem sugeno1_output_form (op : AndKind) (cs : List (ℚ × ℚ × ℚ)) (h s : ℚ) :
    sugeno1_infer op cs h s
      = weightedAverageClamped (sugeno1_w op h s)
          (cs.map (fun t =>
            t.1 + t.2.1 * clampQ ((h - HR_LO) / (HR_HI - HR_LO)) 0 1
              + t.2.2 * clampQ (s / 10) 0 1)) := by
  have hg : ((10:ℚ)^9)⁻¹ ⊔ (HR_HI - HR_LO) = HR_HI - HR_LO := by
    rw [HR_LO_eq, HR_HI_eq]
    exact max_eq_right (by norm_num)
  by_cases hd : ((10:ℚ)^12)⁻¹ < (sugeno1_w op h s).sum
  · simp [sugeno1_infer, weightedAverageClamped, hd, hg]
  · simp [sugeno1_infer, weightedAverageClamped, hd, hg, clampQ]

/-- Claim C8: for every query and operator choice, the Sugeno-0 and
Sugeno-1 engines compute the same 10-entry rule-weight vector, and with
the minimum operator that vector equals the Mamdani rule strengths. -/
theorem engines_share_rule_weights (op : AndKind) (h s : ℚ) :
    sugeno_w op h s = sugeno1_w op h s ∧
    sugeno_w AndKind.min h s = mamdani_w h s :=
  ⟨rfl, rfl⟩

/-- Claim C10: for every non-negative age and athlete flag the heart-rate
band returned by hr_normal_band_by_age satisfies 40 <= lo < hi, so it
always provides a configuration with HR_LO < HR_HI and the athlete
adjustment never drops below 40. -/
theorem hr_band_invariant (age : ℚ) (ath : Bool) (_hage : 0 ≤ age) :
    40 ≤ (hr_normal_band_by_age age ath).1 ∧
    (hr_normal_band_by_age age ath).1 < (hr_normal_band_by_age age ath).2 := by
  simp only [hr_normal_band_by_age]
  split_ifs <;> norm_num

/-- Witness for C10 at the configured subject profile (age 30,
non-athlete). -/
theorem hr_band_invariant_witness :
    40 ≤ (hr_normal_band_by_age 30 false).1 ∧
    (hr_normal_band_by_age 30 false).1 < (hr_normal_band_by_age 30 false).2 :=
  hr_band_invariant 30 false (by norm_num)

/-- Heart-rate queries at or below the universe start return the first
sample's degree. -/
lemma gradeHr_clamp_left (c : ℕ → ℚ) (v : ℚ) (hv : v ≤ 30) :
    gradeHr c v = c 0 := by
  rw [gradeHr]
  exact membershipAt_low _ _ _ _ _ (by rw [hrLoU]; exact hv)

/-- Heart-rate queries at or above the universe end return the last
sample's degree. -/
lemma gradeHr_clamp_right (c : ℕ → ℚ) (v : ℚ) (hv : 200 ≤ v) :
    gradeHr c v = c 399 := by
  rw [gradeHr]
  exact membershipAt_high _ _ _ _ _ (by norm_num [hrStep]) (by norm_num [hrCount])
    (by norm_num [hrLoU, hrStep, hrCount]; linarith)

/-- Symptom queries at or below the universe start return the first
sample's degree. -/
lemma gradeSym_clamp_left (c : ℕ → ℚ) (v : ℚ) (hv : v ≤ 0) :
    gradeSym c v = c 0 := by
  rw [gradeSym]
  exact membershipAt_low _ _ _ _ _ (by rw [symLoU]; exact hv)

/-- Symptom queries at or above the universe end return the last sample's
degree. -/
lemma gradeSym_clamp_right (c : ℕ → ℚ) (v : ℚ) (hv : 10 ≤ v) :
    gradeSym c v = c 199 := by
  rw [gradeSym]
  exact membershipAt_high _ _ _ _ _ (by norm_num [symStep]) (by norm_num [symCount])
    (by norm_num [symLoU, symStep, symCount]; linarith)

/-- Heart-rate queries at an exact sample point return the stored degree. -/
lemma gradeHr_node (c : ℕ → ℚ) (k : ℕ) (hk : k < 400) :
    gradeHr c (30 + 170/399 * k) = c k :=
  membershipAt_node hrLoU hrStep hrCount c (by norm_num [hrStep]) k hk

/-- Symptom queries at an exact sample point return the stored degree. -/
lemma gradeSym_node (c : ℕ → ℚ) (k : ℕ) (hk : k < 200) :
    gradeSym c (10/199 * k) = c k := by
  rw [gradeSym, show ((10:ℚ)/199 * (k:ℚ)) = gridPt symLoU symStep k from by
    simp [gridPt, symLoU, symStep]]
  exact membershipAt_node symLoU symStep symCount c (by norm_num [symStep]) k hk

/-- Claim C7: for every sampled membership curve, queries outside the
universe's sampled range return the boundary sample's degree (clamping,
not extrapolation and not zero) — in particular any heart rate at or
below 30 or at or above 200 — and a query at an exact sample point
returns the stored degree exactly. -/
theorem membership_clamp_and_nodes (c : ℕ → ℚ) (v : ℚ) :
    (v ≤ 30 → gradeHr c v = c 0) ∧
    (200 ≤ v → gradeHr c v = c 399) ∧
    (v ≤ 0 → gradeSym c v = c 0) ∧
    (10 ≤ v → gradeSym c v = c 199) ∧
    (∀ k : ℕ, k < 400 → gradeHr c (30 + 170/399 * (k : ℚ)) = c k) ∧
    (∀ k : ℕ, k < 200 → gradeSym c (10/199 * (k : ℚ)) = c k) :=
  ⟨gradeHr_clamp_left c v, gradeHr_clamp_right c v,
   gradeSym_clamp_left c v, gradeSym_clamp_right c v,
   gradeHr_node c, gradeSym_node c⟩

/-- Witness for C7: concrete boundary clamps and a concrete node hit. -/
theorem membership_clamp_and_nodes_witness :
    gradeHr hr_low 20 = hr_low 0 ∧ gradeHr hr_high 250 = hr_high 399 ∧
    gradeSym sym_med (10/199 * 50) = sym_med 50 :=
  ⟨(membership_clamp_and_nodes hr_low 20).1 (by norm_num),
   (membership_clamp_and_nodes hr_high 250).2.1 (by norm_num),
   (membership_clamp_and_nodes sym_med 0).2.2.2.2.2 50 (by norm_num)⟩

/-- Claim C5: for every query and either AND operator, the rule-weight
vectors (Sugeno and Mamdani) have 10 entries, all non-negative; each of
the nine conjunction-rule weights lies in [0, 1] and the baseline weight
(index 8) lies in [0, 1/2]. -/
theorem rule_weight_bounds (op : AndKind) (h s : ℚ) :
    (sugeno_w op h s).length = 10 ∧ (mamdani_w h s).length = 10 ∧
    (∀ j, j < 10 → 0 ≤ (sugeno_w op h s).getD j 0) ∧
    (∀ j, j < 10 → 0 ≤ (mamdani_w h s).getD j 0) ∧
    (∀ j, j < 10 → j ≠ 8 → (sugeno_w op h s).getD j 0 ≤ 1) ∧
    (∀ j, j < 10 → j ≠ 8 → (mamdani_w h s).getD j 0 ≤ 1) ∧
    (sugeno_w op h s).getD 8 0 ≤ 1/2 ∧
    (mamdani_w h s).getD 8 0 ≤ 1/2 := by
  obtain ⟨hl0, hl1⟩ :=
    gradeHr_mem hr_low (fun i => (hr_low_mem i).1) (fun i => (hr_low_mem i).2) h
  obtain ⟨hn0, hn1⟩ :=
    gradeHr_mem hr_normal (fun i => (hr_normal_mem i).1) (fun i => (hr_normal_mem i).2) h
  obtain ⟨hh0, hh1⟩ :=
    gradeHr_mem hr_high (fun i => (hr_high_mem i).1) (fun i => (hr_high_mem i).2) h
  obtain ⟨sl0, sl1⟩ :=
    gradeSym_mem sym_low (fun i => (sym_low_mem i).1) (fun i => (sym_low_mem i).2) s
  obtain ⟨sm0, sm1⟩ :=
    gradeSym_mem sym_med (fun i => (sym_med_mem i).1) (fun i => (sym_med_mem i).2) s
  obtain ⟨sh0, sh1⟩ :=
    gradeSym_mem sym_high (fun i => (sym_high_mem i).1) (fun i => (sym_high_mem i).2) s
  have hb0 : 0 ≤ 1/2 * max (gradeHr hr_low h) (gradeHr hr_high h) :=
    mul_nonneg (by norm_num) (le_trans hl0 (le_max_left _ _))
  have hb1 : 1/2 * max (gradeHr hr_low h) (gradeHr hr_high h) ≤ 1/2 := by
    nlinarith [max_le hl1 hh1]
  refine ⟨rfl, rfl, ?_, ?_, ?_, ?_, ?_, ?_⟩
  · intro j hj
    rcases j with _|(_|(_|(_|(_|(_|(_|(_|(_|(_|j)))))))))
    · exact AND_nonneg op _ _ hl0 sm0
    · exact AND_nonneg op _ _ hl0 sh0
    · exact AND_nonneg op _ _ hh0 sm0
    · exact AND_nonneg op _ _ hh0 sh0
    · exact AND_nonneg op _ _ hn0 sh0
    · exact AND_nonneg op _ _ hl0 sl0
    · exact AND_nonneg op _ _ hh0 sl0
    · exact AND_nonneg op _ _ hn0 sm0
    · exact hb0
    · exact AND_nonneg op _ _ hn0 sl0
    · omega
  · intro j hj
    rcases j with _|(_|(_|(_|(_|(_|(_|(_|(_|(_|j)))))))))
    · exact le_min hl0 sm0
    · exact le_min hl0 sh0
    · exact le_min hh0 sm0
    · exact le_min hh0 sh0
    · exact le_min hn0 sh0
    · exact le_min hl0 sl0
    · exact le_min hh0 sl0
    · exact le_min hn0 sm0
    · exact hb0
    · exact le_min hn0 sl0
    · omega
  · intro j hj hj8
    rcases j with _|(_|(_|(_|(_|(_|(_|(_|(_|(_|j)))))))))
    · exact AND_le_one op _ _ hl1 sm0 sm1
    · exact AND_le_one op _ _ hl1 sh0 sh1
    · exact AND_le_one op _ _ hh1 sm0 sm1
    · exact AND_le_one op _ _ hh1 sh0 sh1
    · exact AND_le_one op _ _ hn1 sh0 sh1
    · exact AND_le_one op _ _ hl1 sl0 sl1
    · exact AND_le_one op _ _ hh1 sl0 sl1
    · exact AND_le_one op _ _ hn1 sm0 sm1
    · exact absurd rfl hj8
    · exact AND_le_one op _ _ hn1 sl0 sl1
    · omega
  · intro j hj hj8
    rcases j with _|(_|(_|(_|(_|(_|(_|(_|(_|(_|j)))))))))
    · exact le_trans (min_le_left _ _) hl1
    · exact le_trans (min_le_left _ _) hl1
    · exact le_trans (min_le_left _ _) hh1
    · exact le_trans (min_le_left _ _) hh1
    · exact le_trans (min_le_left _ _) hn1
    · exact le_trans (min_le_left _ _) hl1
    · exact le_trans (min_le_left _ _) hh1
    · exact le_trans (min_le_left _ _) hn1
    · exact absurd rfl hj8
    · exact le_trans (min_le_left _ _) hn1
    · omega
  · exact hb1
  · exact hb1

/-- Witness for C5 at the query (110, 7) with the product operator. -/
theorem rule_weight_bounds_witness :
    0 ≤ (sugeno_w AndKind.prod 110 7).getD 3 0 ∧
    (sugeno_w AndKind.prod 110 7).getD 3 0 ≤ 1 ∧
    0 ≤ (mamdani_w 110 7).getD 8 0 ∧
    (mamdani_w 110 7).getD 8 0 ≤ 1/2 :=
  ⟨(rule_weight_bounds AndKind.prod 110 7).2.2.1 3 (by norm_num),
   (rule_weight_bounds AndKind.prod 110 7).2.2.2.2.1 3 (by norm_num) (by norm_num),
   (rule_weight_bounds AndKind.prod 110 7).2.2.2.1 8 (by norm_num),
   (rule_weight_bounds AndKind.prod 110 7).2.2.2.2.2.2.2⟩

/-- Claim C1: for every query the Mamdani engine computes the ten rule
weights with AND = min, clips each rule's target consequent curve by
pointwise minimum with its weight, aggregates the clipped curves (per
class and across classes) by pointwise maximum into one curve over the
risk universe, and returns the discrete centroid
sum(risk_i * aggregated_i) / sum(aggregated_i) of that curve. -/
theorem mamdani_pipeline (h s : ℚ) :
    (∀ i, aggregated h s i = specAgg h s i) ∧
    crisp_risk h s =
      sumRange 200 (fun i => riskPt i * specAgg h s i) /
        sumRange 200 (specAgg h s) := by
  have hL0 : ∀ v, 0 ≤ gradeHr hr_normal v := fun v =>
    (gradeHr_mem hr_normal (fun i => (hr_normal_mem i).1)
      (fun i => (hr_normal_mem i).2) v).1
  have hS0 : ∀ v, 0 ≤ gradeSym sym_low v := fun v =>
    (gradeSym_mem sym_low (fun i => (sym_low_mem i).1)
      (fun i => (sym_low_mem i).2) v).1
  have hpt : ∀ i, aggregated h s i = specAgg h s i := by
    intro i
    have hlow0 : 0 ≤ min (risk_low i) (r_low_1 h s) :=
      le_min (risk_low_mem i).1 (le_min (hL0 h) (hS0 s))
    simp only [specAgg, mamdani_w, mamdaniConsequents, List.zipWith, List.foldr,
      aggregated, act_low, act_med, act_hi]
    rw [max_eq_left hlow0]
    simp only [max_assoc, max_comm, max_left_comm]
  refine ⟨hpt, ?_⟩
  rw [crisp_risk, centroid, symCount]
  rw [sumRange_congr 200 _ _ (fun i => by rw [hpt i]),
    sumRange_congr 200 (aggregated h s) (specAgg h s) hpt]

/-- Claim C9 counterexample: at the query (110, 7) with the default
configuration it is not the case that all three engines return a risk
above 6.5 — the Mamdani engine's output is below 6.5. -/
theorem high_query_all_engines_counterexample :
    ¬ (13/2 < crisp_risk 110 7 ∧ 13/2 < sugeno_infer_default 110 7 ∧
        13/2 < sugeno1_infer AndKind.prod DEFAULT_TSK1_COEFFS 110 7) := by
  intro hcl
  have h1 := hcl.1
  rw [crisp_risk_110_7] at h1
  norm_num at h1

/-- Claim C9 amended: at the query (110, 7) with the default
configuration, the Sugeno-0 and Sugeno-1 engines return a risk above
6.5, while the Mamdani engine returns a risk of about 6.37 — above 6 but
below 6.5. -/
theorem high_query_all_engines_amended :
    13/2 < sugeno_infer_default 110 7 ∧
    13/2 < sugeno1_infer AndKind.prod DEFAULT_TSK1_COEFFS 110 7 ∧
    6 < crisp_risk 110 7 ∧ crisp_risk 110 7 < 13/2 := by
  rw [crisp_risk_110_7, sugeno0_110_7, sugeno1_110_7]
  norm_num
